import Mathlib

/-!
Verification of the containment-graph resolution and complexity-aggregation
engine of the c2l assessment backend (`app/services/report_service.py`) and of
the hierarchy/cycle-detection utility (`app/services/hierarchy_service.py`).

Modelling conventions:
* Object and relationship identifiers are modelled as `String`.  In the
  database they are UUIDs; the code defensively also indexes maps by `str(id)`.
  With string identifiers `str(x) = x`, so those aliasing branches are no-ops
  and are dropped; every lookup and comparison is otherwise kept verbatim.
* The open JSON property bag is modelled by `PVal` (string / bool / int
  values); a missing key is the Python `None`.  Python truthiness (`or`,
  `if v:`) is modelled by `pvalTruthy` / `pyOr`.
* Python `dict` is modelled by an insertion-ordered association list
  (`alSet` keeps the position of an updated key, as CPython does);
  `defaultdict(list)` appends by `alApp`.  Python `set` is modelled by a
  duplicate-free list in insertion order; every use of a set in the source
  is order-insensitive (cardinality, union, membership, or `sorted`).
* The memoisation caches (`_root_cache`, the BigQuery caches) are
  transparent for a pure function and are not modelled; the cached BigQuery
  reference tables are passed in as explicit inputs.
* Bounded loops (`while queue:` breadth-first searches and parent-chain
  walks) are modelled with an explicit fuel argument that provably dominates
  the number of iterations the Python loop can make (each iteration either
  pops a queue element that was enqueued at most once per adjacency-list
  entry, or follows one association-list entry); the out-of-fuel branch
  returns the same value as the loop-exhausted branch.
-/

namespace C2L

/-- A JSON property value: string, boolean or integer. -/
inductive PVal where
  | s (v : String)
  | b (v : Bool)
  | n (v : Int)
deriving DecidableEq, Repr

/-- An object's open property bag (`properties` JSON column). -/
abbrev Props := List (String × PVal)

/-- Python truthiness of a property value. -/
def pvalTruthy : PVal → Bool
  | .s v => !(v == "")
  | .b v => v
  | .n v => !(v == 0)

/-- Python `str(...)` of a property value. -/
def pvalStr : PVal → String
  | .s v => v
  | .b v => if v then "True" else "False"
  | .n v => toString v

/-- Truthiness of an optional value (`None` is falsy). -/
def optTruthy : Option PVal → Bool
  | none => false
  | some v => pvalTruthy v

/-- Python `a or b` on optional property values. -/
def pyOr (a b : Option PVal) : Option PVal :=
  if optTruthy a then a else b

/-- ASCII lower-casing of one character (Python `str.lower` on the ASCII
identifiers and keywords this engine compares). -/
def lcChar (c : Char) : Char :=
  if 'A' ≤ c && c ≤ 'Z' then Char.ofNat (c.toNat + 32) else c

/-- Python `str.lower()`. -/
def strLower (s : String) : String :=
  String.mk (s.toList.map lcChar)

/-- Python whitespace stripped by `str.strip()`. -/
def isWS (c : Char) : Bool :=
  c == ' ' || c == '\t' || c == '\n' || c == '\r' || c == '\x0b' || c == '\x0c'

/-- Python `str.strip()`. -/
def strTrim (s : String) : String :=
  String.mk (((s.toList.dropWhile isWS).reverse.dropWhile isWS).reverse)

/-- Python `props.get(k)`. -/
def pget (p : Props) (k : String) : Option PVal :=
  (p.find? (fun kv => kv.1 == k)).map (·.2)

/-- `ReportService._get_prop_any_case`: first candidate key with a non-`None`
value, trying exact match first, then a case-insensitive scan of the bag. -/
def getPropAnyCase (p : Props) (ks : List String) : Option PVal :=
  match ks.findSome? (fun k => pget p k) with
  | some v => some v
  | none =>
      (p.find? (fun kv => ks.any (fun k => strLower k == strLower kv.1))).map (·.2)

/-- `needle` occurs at the front of `hay`. -/
def charsPre : List Char → List Char → Bool
  | [], _ => true
  | _ :: _, [] => false
  | a :: as, b :: bs => a == b && charsPre as bs

/-- `needle` occurs somewhere in `hay` (Python `needle in hay`). -/
def charsSub (needle : List Char) : List Char → Bool
  | [] => charsPre needle []
  | c :: t => charsPre needle (c :: t) || charsSub needle t

/-- Python `needle in hay` on strings. -/
def strHasSub (hay needle : String) : Bool :=
  charsSub needle.toList hay.toList

/-- The fixed critical-term list of `_calculated_field_complexity`. -/
def criticalTerms : List String :=
  ["prefilter", "quartile", "quantile", "power",
   "position_regex", "substring_regex", "period",
   "lookup", "running-maximum", "running-minimum",
   "moving-average", "standard-deviation",
   "regression-average", "tanhyp", "variance",
   "_ymdint_between", "_ymdint_to_date", "_ymdint_to_time"]

/-- The fixed medium-term list of `_calculated_field_complexity`
(the source tuple repeats the four date-arithmetic entries; duplicates are
kept). -/
def mediumTerms : List String :=
  ["cast", "moving-total",
   "_add_months", "_add_years", "_add_days", "_add_weeks",
   "_add_months", "_add_years", "_add_days", "_add_weeks",
   "_first_of_month", "_days_between", "_first_of_year",
   "_months_between", "_years_between"]

/-- `expr_str = (expression if isinstance(expression, str) else str(expression or ""))`. -/
def exprText : Option PVal → String
  | some (.s v) => v
  | some (.b v) => if v then "True" else ""
  | some (.n v) => if v == 0 then "" else toString v
  | none => ""

/-- `ReportService._calculated_field_complexity`.  Note: the source lower-cases
`calculation_type` and then compares it with the mixed-case literal
`"embeddedCalculation"`; the comparison is kept verbatim. -/
def calculatedFieldComplexity (calculationType : String) (expression : Option PVal) :
    String :=
  let ct := strLower (strTrim calculationType)
  if ct == "embeddedCalculation" then "Medium"
  else if ct == "case_expression" || ct == "if_expression" ||
      ct == "aggregate_function" || ct == "function" then "Low"
  else
    let exprStr := strLower (exprText expression)
    if criticalTerms.any (fun t => strHasSub exprStr t) then "Critical"
    else if mediumTerms.any (fun t => strHasSub exprStr t) then "Medium"
    else "Low"

/-! ## Data model -/

/-- Object / relationship identifier (UUIDs rendered as strings). -/
abbrev Id := String

/-- `ExtractedObject`: the fields the engine reads. -/
structure Obj where
  id : Id
  objectType : String
  name : String
  fileId : Id
  properties : Props
deriving DecidableEq, Repr

/-- `ObjectRelationship`: the fields the engine reads. -/
structure Rel where
  relationshipType : String
  sourceObjectId : Id
  targetObjectId : Id
deriving DecidableEq, Repr

/-- `_normalize_rel_type`. -/
def normalizeRelType (rt : String) : String := strLower (strTrim rt)

/-- `_normalize_object_type`. -/
def normalizeObjectType (ot : String) : String := strLower (strTrim ot)

def CONTAINMENT_REL_TYPES : List String := ["contains", "parent_child"]
def USAGE_REL_TYPES : List String := ["uses", "references", "connects_to"]
def ROOT_OBJECT_TYPES : List String := ["dashboard", "report"]
def COMPLEXITY_LEVELS : List String := ["low", "medium", "high", "critical"]

/-! ## Ordered dictionaries and sets (CPython semantics) -/

/-- `dict.get`. -/
def alGet [BEq α] (m : List (α × β)) (k : α) : Option β :=
  (m.find? (fun kv => kv.1 == k)).map (·.2)

/-- `dict.get(k, d)`. -/
def alGetD [BEq α] (m : List (α × β)) (k : α) (d : β) : β :=
  (alGet m k).getD d

/-- `dict[k] = v`: updates in place (keeping insertion position) or appends. -/
def alSet [BEq α] (m : List (α × β)) (k : α) (v : β) : List (α × β) :=
  match m with
  | [] => [(k, v)]
  | kv :: t => if kv.1 == k then (k, v) :: t else kv :: alSet t k v

/-- `defaultdict(list); m[k].append(v)`. -/
def alApp [BEq α] (m : List (α × List β)) (k : α) (v : β) : List (α × List β) :=
  match m with
  | [] => [(k, [v])]
  | kv :: t => if kv.1 == k then (kv.1, kv.2 ++ [v]) :: t else kv :: alApp t k v

/-- `set.add` on a duplicate-free insertion-ordered list. -/
def slAdd [BEq α] (s : List α) (x : α) : List α :=
  if s.contains x then s else s ++ [x]

/-- `set.update`. -/
def slUnion [BEq α] (s t : List α) : List α :=
  t.foldl slAdd s

/-! ## Containment tree -/

/-- `ContainmentTree` (the `_root_cache` memoisation is transparent for a
pure function and is not modelled). -/
structure ContainmentTree where
  idToObj : List (Id × Obj)
  containsParent : List (Id × Id)
  containsChildren : List (Id × List Id)
deriving DecidableEq, Repr

/-- `build_containment_tree`: keeps only containment relationships whose two
endpoints resolve to known objects. -/
def buildContainmentTree (objects : List Obj) (rels : List Rel) : ContainmentTree :=
  let idToObj := objects.foldl (fun m o => alSet m o.id o) []
  let pc := rels.foldl
    (fun (pc : List (Id × Id) × List (Id × List Id)) r =>
      let rt := normalizeRelType r.relationshipType
      if CONTAINMENT_REL_TYPES.contains rt &&
          (alGet idToObj r.sourceObjectId).isSome &&
          (alGet idToObj r.targetObjectId).isSome then
        (alSet pc.1 r.targetObjectId r.sourceObjectId,
         alApp pc.2 r.sourceObjectId r.targetObjectId)
      else pc)
    ([], [])
  ⟨idToObj, pc.1, pc.2⟩

/-- `ContainmentTree.get_root`: walk the containment-parent chain upward with
a visited set, returning the first dashboard/report.  `fuel` dominates the
number of iterations (each non-final step follows one `containsParent`
entry whose key was not yet visited). -/
def getRootAux (tree : ContainmentTree) : Nat → Option Id → List Id →
    Option Id × Option String
  | 0, _, _ => (none, none)
  | _, none, _ => (none, none)
  | fuel + 1, some cur, visited =>
      if cur == "" || visited.contains cur then (none, none)
      else
        let next := fun (_ : Unit) =>
          getRootAux tree fuel (alGet tree.containsParent cur) (visited ++ [cur])
        match alGet tree.idToObj cur with
        | some o =>
            let ot := normalizeObjectType o.objectType
            if ROOT_OBJECT_TYPES.contains ot then (some cur, some ot)
            else next ()
        | none => next ()

/-- `ContainmentTree.get_root`. -/
def getRoot (tree : ContainmentTree) (objectId : Id) : Option Id × Option String :=
  getRootAux tree (tree.containsParent.length + 2) (some objectId) []

/-- `_file_to_container_type` (also `BreakdownContext._build_file_container`):
file id → `"dashboard"` / `"report"` from the object types in the file. -/
def fileToContainerType (objects : List Obj) : List (Id × String) :=
  let fileTypes : List (Id × List String) :=
    objects.foldl
      (fun m o =>
        let ot := normalizeObjectType o.objectType
        if ot == "" then m else alSet m o.fileId (slAdd (alGetD m o.fileId []) ot))
      []
  fileTypes.foldl
    (fun r ft =>
      if ft.2.contains "dashboard" then alSet r ft.1 "dashboard"
      else if ft.2.contains "report" then alSet r ft.1 "report"
      else r)
    []

/-- The `relationships_by_target` map built in `_get_generic_breakdown` (and
repeated in other breakdowns): target id → source ids, with NO check that the
endpoints reference known objects. -/
def relationshipsByTarget (rels : List Rel) : List (Id × List Id) :=
  rels.foldl (fun m r => alApp m r.targetObjectId r.sourceObjectId) []

/-! ## Root resolution -/

/-- A distinct-aggregation key: a real root object, or the synthetic
`("file", file_id)` root of the file fallback. -/
inductive RootKey where
  | obj (i : Id)
  | file (f : Id)
deriving DecidableEq, Repr

/-- Result of `_resolve_containment_root`:
`(dashboards_containing_count, reports_containing_count, dash_root_key, report_root_key)`. -/
structure Resolution where
  dashboardsCount : Nat
  reportsCount : Nat
  dashRootKey : Option RootKey
  reportRootKey : Option RootKey
deriving DecidableEq, Repr

/-- The fallback breadth-first search of `_resolve_containment_root`: follow
`relationships_by_target` (sources of any relationship pointing at the
visited node, regardless of category) until a node with a dashboard/report
`get_root` is found.  Unseen sources are marked seen when enqueued. -/
def resolveBfsAux (tree : ContainmentTree) (rbt : List (Id × List Id)) :
    Nat → List Id → List Id → Option Resolution
  | 0, _, _ => none
  | _, [], _ => none
  | fuel + 1, node :: rest, seen =>
      let rr := getRoot tree node
      if rr.2 == some "dashboard" && rr.1.isSome then
        some ⟨1, 0, rr.1.map RootKey.obj, none⟩
      else if rr.2 == some "report" && rr.1.isSome then
        some ⟨0, 1, none, rr.1.map RootKey.obj⟩
      else
        let qs := (alGetD rbt node []).foldl
          (fun (qs : List Id × List Id) srcId =>
            if qs.2.contains srcId then qs
            else (qs.1 ++ [srcId], qs.2 ++ [srcId]))
          (rest, seen)
        resolveBfsAux tree rbt fuel qs.1 qs.2

/-- Fuel that dominates the iteration count of the resolver BFS: every queue
entry stems from one adjacency-list element (or the initial seeding). -/
def rbtFuel (rbt : List (Id × List Id)) : Nat :=
  2 * (rbt.map (fun kv => kv.2.length)).sum + 2

/-- The initial seeding of the fallback BFS: enqueue the unseen sources of
relationships targeting the object itself (`seen` starts as `{obj.id}`). -/
def resolveQs0 (o : Obj) (rbt : List (Id × List Id)) : List Id × List Id :=
  (alGetD rbt o.id []).foldl
    (fun (qs : List Id × List Id) srcId =>
      if qs.2.contains srcId then qs
      else (qs.1 ++ [srcId], qs.2 ++ [srcId]))
    ([], [o.id])

/-- The file-container fallback of `_resolve_containment_root`. -/
def resolveFileFallback (o : Obj) (fileContainer : List (Id × String)) : Resolution :=
  let container := alGet fileContainer o.fileId
  if container == some "dashboard" then ⟨1, 0, some (.file o.fileId), none⟩
  else if container == some "report" then ⟨0, 1, none, some (.file o.fileId)⟩
  else ⟨0, 0, none, none⟩

/-- `ReportService._resolve_containment_root`: (1) containment `get_root`,
(2) BFS along `relationships_by_target`, (3) file-container fallback. -/
def resolveContainmentRoot (o : Obj) (tree : ContainmentTree)
    (fileContainer : List (Id × String)) (rbt : List (Id × List Id)) : Resolution :=
  let rr := getRoot tree o.id
  if rr.2 == some "dashboard" && rr.1.isSome then ⟨1, 0, rr.1.map RootKey.obj, none⟩
  else if rr.2 == some "report" && rr.1.isSome then ⟨0, 1, none, rr.1.map RootKey.obj⟩
  else
    match resolveBfsAux tree rbt (rbtFuel rbt) (resolveQs0 o rbt).1 (resolveQs0 o rbt).2 with
    | some r => r
    | none => resolveFileFallback o fileContainer

/-! ## Usage graphs and generic BFS -/

/-- The three lazily derived usage adjacency maps of `_build_usage_graphs`
(both endpoints must resolve to known objects). -/
structure UsageGraphs where
  usageChildren : List (Id × List Id)
  usageParents : List (Id × List Id)
  hasColumnParents : List (Id × List Id)
deriving DecidableEq, Repr

/-- `ReportService._build_usage_graphs`. -/
def buildUsageGraphs (rels : List Rel) (idToObj : List (Id × Obj)) : UsageGraphs :=
  rels.foldl
    (fun g r =>
      let rt := normalizeRelType r.relationshipType
      if (alGet idToObj r.sourceObjectId).isNone ||
          (alGet idToObj r.targetObjectId).isNone then g
      else if USAGE_REL_TYPES.contains rt then
        { g with
          usageChildren := alApp g.usageChildren r.sourceObjectId r.targetObjectId,
          usageParents := alApp g.usageParents r.targetObjectId r.sourceObjectId }
      else if rt == "has_column" then
        { g with
          hasColumnParents := alApp g.hasColumnParents r.targetObjectId r.sourceObjectId }
      else g)
    ⟨[], [], []⟩

/-- The `while queue:` pattern shared by the `bfs_reach_*` helpers: pop, skip
if seen, mark seen, enqueue unseen neighbours.  Returns the visited nodes in
processing order. -/
def bfsPopOrder (neighbors : Id → List Id) : Nat → List Id → List Id → List Id
  | 0, _, seen => seen
  | _, [], seen => seen
  | fuel + 1, node :: rest, seen =>
      if seen.contains node then bfsPopOrder neighbors fuel rest seen
      else
        let seen2 := seen ++ [node]
        let toAdd := (neighbors node).filter (fun c => !seen2.contains c)
        bfsPopOrder neighbors fuel (rest ++ toAdd) seen2

/-- `_collect_dashboard_report_roots`. -/
def collectDashboardReportRoots (objects : List Obj) (tree : ContainmentTree) :
    List Id × List Id :=
  let init := tree.idToObj.foldl
    (fun (dr : List Id × List Id) kv =>
      let ot := normalizeObjectType kv.2.objectType
      if ot == "dashboard" then (slAdd dr.1 kv.1, dr.2)
      else if ot == "report" then (dr.1, slAdd dr.2 kv.1)
      else dr)
    ([], [])
  objects.foldl
    (fun dr o =>
      match getRoot tree o.id with
      | (some rid, some "dashboard") => (slAdd dr.1 rid, dr.2)
      | (some rid, some "report") => (dr.1, slAdd dr.2 rid)
      | _ => dr)
    init

/-! ## Stats, trackers, by-complexity -/

/-- A `{"low": _, "medium": _, "high": _, "critical": _}` tally. -/
structure Stats where
  low : Nat
  medium : Nat
  high : Nat
  critical : Nat
deriving DecidableEq, Repr

def statsZero : Stats := ⟨0, 0, 0, 0⟩

/-- Sum of the four levels. -/
def statsSum (s : Stats) : Nat := s.low + s.medium + s.high + s.critical

/-- One item's contribution to `_build_complexity_stats`. -/
def statsCountStep (st : Stats) (c : String) : Stats :=
  let ck := strLower (strTrim c)
  if ck == "low" then { st with low := st.low + 1 }
  else if ck == "medium" then { st with medium := st.medium + 1 }
  else if ck == "high" then { st with high := st.high + 1 }
  else if ck == "critical" then { st with critical := st.critical + 1 }
  else st

/-- `_build_complexity_stats` over the items' complexity strings. -/
def buildComplexityStats (cs : List String) : Stats :=
  cs.foldl statsCountStep statsZero

/-- `ComplexityTracker`: per-level item counts and per-level distinct
dashboard/report root keys. -/
structure Tracker where
  count : Stats
  dashLow : List RootKey
  dashMedium : List RootKey
  dashHigh : List RootKey
  dashCritical : List RootKey
  repLow : List RootKey
  repMedium : List RootKey
  repHigh : List RootKey
  repCritical : List RootKey
deriving DecidableEq, Repr

def trackerInit : Tracker := ⟨statsZero, [], [], [], [], [], [], [], []⟩

def slAddOpt (s : List RootKey) : Option RootKey → List RootKey
  | some k => slAdd s k
  | none => s

/-- `ComplexityTracker.add`. -/
def trackerAdd (t : Tracker) (complexity : String) (dashKey repKey : Option RootKey) :
    Tracker :=
  let ck := strLower (strTrim complexity)
  if ck == "low" then
    { t with count := { t.count with low := t.count.low + 1 },
             dashLow := slAddOpt t.dashLow dashKey,
             repLow := slAddOpt t.repLow repKey }
  else if ck == "medium" then
    { t with count := { t.count with medium := t.count.medium + 1 },
             dashMedium := slAddOpt t.dashMedium dashKey,
             repMedium := slAddOpt t.repMedium repKey }
  else if ck == "high" then
    { t with count := { t.count with high := t.count.high + 1 },
             dashHigh := slAddOpt t.dashHigh dashKey,
             repHigh := slAddOpt t.repHigh repKey }
  else if ck == "critical" then
    { t with count := { t.count with critical := t.count.critical + 1 },
             dashCritical := slAddOpt t.dashCritical dashKey,
             repCritical := slAddOpt t.repCritical repKey }
  else t

/-- One level entry of the `by_complexity` dict built by
`_build_by_complexity` (the redundant `"complexity": level` key is the
field position). -/
structure LevelEntry where
  count : Nat
  dashboardsContainingCount : Nat
  reportsContainingCount : Nat
deriving DecidableEq, Repr

/-- The `by_complexity` dict (one entry per level in `COMPLEXITY_LEVELS`). -/
structure ByComplexity where
  low : LevelEntry
  medium : LevelEntry
  high : LevelEntry
  critical : LevelEntry
deriving DecidableEq, Repr

/-- `ComplexityTracker.build_by_complexity` / `_build_by_complexity`. -/
def trackerBy (t : Tracker) : ByComplexity :=
  ⟨⟨t.count.low, t.dashLow.length, t.repLow.length⟩,
   ⟨t.count.medium, t.dashMedium.length, t.repMedium.length⟩,
   ⟨t.count.high, t.dashHigh.length, t.repHigh.length⟩,
   ⟨t.count.critical, t.dashCritical.length, t.repCritical.length⟩⟩

/-! ## Property extraction helpers -/

/-- Python `(v or "")` rendered as a string. -/
def pyStrOr : Option PVal → String
  | some w => if pvalTruthy w then pvalStr w else ""
  | none => ""

/-- `(name or "").strip() or default`. -/
def pyName (n : String) (d : String) : String :=
  let t := strTrim n
  if t == "" then d else t

/-- String truncation of `_safe_props` (`v[:preview_len] + "…"`). -/
def truncPVal (previewLen : Option Nat) (v : PVal) : PVal :=
  match previewLen, v with
  | some n, .s str =>
      if n != 0 && str.length > n then .s (String.mk (str.toList.take n) ++ "…")
      else .s str
  | _, _ => v

/-- `ReportService._safe_props`. -/
def safeProps (props : Props) (keys : List String) (previewLen : Option Nat) : Props :=
  keys.foldl
    (fun out k =>
      match pget props k with
      | none => out
      | some v => alSet out k (truncPVal previewLen v))
    []

/-! ## Visualization typing and external reference tables -/

/-- The fallback `VISUALIZATION_TYPE_NAMES` allowlist (the optional
`bi_parsers` import is absent from this repository). -/
def VISUALIZATION_TYPE_NAMES : List String :=
  ["Pie", "Bar", "Line", "Area", "Donut", "Scatter", "Bubble", "Radar",
   "Clustered Bar", "Stacked Bar", "Clustered Column", "Stacked Column",
   "Pie Chart", "Bar Chart", "Line Chart", "Area Chart", "Chart",
   "Data Table", "List", "CrossTab", "Map", "KPI", "Gauge", "Heatmap"]

/-- `_get_visualization_type_for_object`. -/
def getVisualizationTypeForObject (o : Obj) : String :=
  let viz := pyOr (pget o.properties "visualization_type") (pget o.properties "type")
  match viz with
  | some v => pvalStr v
  | none => if o.objectType == "" then "unknown" else o.objectType

/-- `_is_visualization_object`. -/
def isVisualizationObject (o : Obj) : Bool :=
  VISUALIZATION_TYPE_NAMES.contains (getVisualizationTypeForObject o)

/-- One cached row of the BigQuery feature list (`Looker_Perspective`). -/
structure FeatureRow where
  featureArea : Option PVal
  feature : Option PVal
  complexity : Option PVal
  feasibility : Option PVal
  description : Option PVal
  recommended : Option PVal
deriving DecidableEq, Repr

/-- The per-visualization reference data kept by
`_get_visualization_complexity_lookup`. -/
structure VizInfo where
  complexity : Option PVal
  feasibility : Option PVal
  description : Option PVal
  recommended : Option PVal
deriving DecidableEq, Repr

/-- `_get_visualization_complexity_lookup` over the cached rows. -/
def getVisualizationComplexityLookup (rows : List FeatureRow) :
    List (String × VizInfo) :=
  rows.foldl
    (fun lk r =>
      let area := strTrim (pyStrOr r.featureArea)
      if area != "Visualization" then lk
      else
        let feature := strTrim (pyStrOr r.feature)
        if feature == "" then lk
        else
          let key := strLower feature
          if (alGet lk key).isSome then lk
          else lk ++ [(key, ⟨r.complexity, r.feasibility, r.description, r.recommended⟩)])
    []

/-- One cached row of the BigQuery complex-analysis feature table
(`Complex_Rules`). -/
structure ComplexFeatureRow where
  featureArea : Option PVal
  feature : Option PVal
  complexity : Option PVal
deriving DecidableEq, Repr

/-- Python `str.replace(" ", "_")`. -/
def strReplaceSpace (s : String) : String :=
  String.mk (s.toList.map (fun c => if c == ' ' then '_' else c))

/-- `_get_complex_analysis_feature_lookup`. -/
def getComplexAnalysisFeatureLookup (rows : List ComplexFeatureRow) :
    List ((String × String) × Option String) :=
  rows.foldl
    (fun lk r =>
      let area := strTrim (pyStrOr r.featureArea)
      if area == "" then lk
      else
        let complexity := strLower (strTrim (pyStrOr r.complexity))
        if complexity == "" then lk
        else
          let areaKey := strReplaceSpace (strLower area)
          if (alGet lk (areaKey, complexity)).isSome then lk
          else lk ++ [((areaKey, complexity), r.feature.map (fun f => strTrim (pvalStr f)))])
    []

/-! ## Generic breakdown -/

/-- One item dict produced by `_get_generic_breakdown`: the id value, display
name, allow-listed extra properties, complexity, containment counts and the
optional `item_builder` additions. -/
structure GenericItem where
  idValue : String
  name : String
  extra : Props
  complexity : String
  dashboardsContainingCount : Nat
  reportsContainingCount : Nat
  extraB : Props
deriving DecidableEq, Repr

/-- The section dict produced by `_get_generic_breakdown`:
`{total_<type>s, stats, <type>s, by_complexity}`. -/
structure GenericBreakdown where
  total : Nat
  stats : Stats
  items : List GenericItem
  byComplexity : ByComplexity
deriving DecidableEq, Repr

/-- `ReportService._get_generic_breakdown`. -/
def genericBreakdown (objects : List Obj) (tree : ContainmentTree) (rels : List Rel)
    (objectType : String) (complexityFn : Option (Obj → Props → String))
    (propKeys : List String) (previewLen : Option Nat)
    (itemBuilder : Option (Obj → Props → Nat → Nat → Props))
    (defaultComplexity : Option String) : GenericBreakdown :=
  let fileContainer := fileToContainerType objects
  let rbt := relationshipsByTarget rels
  let acc := objects.foldl
    (fun (acc : Tracker × List GenericItem) o =>
      if normalizeObjectType o.objectType != objectType then acc
      else
        let props := o.properties
        let extra := safeProps props propKeys previewLen
        let res := resolveContainmentRoot o tree fileContainer rbt
        let complexity :=
          match complexityFn with
          | some f => f o props
          | none => defaultComplexity.getD "Medium"
        let tr := trackerAdd acc.1 complexity res.dashRootKey res.reportRootKey
        let extraB :=
          match itemBuilder with
          | some b => b o props res.dashboardsCount res.reportsCount
          | none => []
        (tr, acc.2 ++ [⟨o.id, pyName o.name "<unnamed>", extra, complexity,
                        res.dashboardsCount, res.reportsCount, extraB⟩]))
    (trackerInit, [])
  ⟨acc.2.length, buildComplexityStats (acc.2.map (·.complexity)), acc.2, trackerBy acc.1⟩

/-! ## Stable sorting (CPython `sorted` / `list.sort` are stable) -/

/-- Insert `x` after every element `y` with `le y x` (stable placement). -/
def insSorted (le : α → α → Bool) (x : α) : List α → List α
  | [] => [x]
  | y :: t => if le y x then y :: insSorted le x t else x :: y :: t

/-- Stable sort by the boolean preorder `le`. -/
def stableSortBy (le : α → α → Bool) (l : List α) : List α :=
  l.foldl (fun acc x => insSorted le x acc) []

/-- Python `<=` on strings: lexicographic comparison by code points. -/
def charsLe : List Char → List Char → Bool
  | [], _ => true
  | _ :: _, [] => false
  | a :: as, b :: bs => if a == b then charsLe as bs else decide (a.toNat < b.toNat)

def strLe (a b : String) : Bool := charsLe a.toList b.toList

/-- Python `sorted` on a set of strings: deduplicate, then sort ascending. -/
def sortedStrSet (l : List String) : List String :=
  stableSortBy strLe (slUnion [] l)

/-! ## Visualization details section -/

/-- One entry of the per-visualization-type `breakdown` list. -/
structure VizTypeEntry where
  visualization : String
  count : Nat
  complexity : String
  feasibility : Option PVal
  description : Option PVal
  recommended : Option PVal
  dashboardsContainingCount : Nat
  reportsContainingCount : Nat
  queriesUsingCount : Nat
deriving DecidableEq, Repr

/-- The `visualization_details` section. -/
structure VizDetails where
  totalVisualization : Nat
  overallComplexity : Option String
  stats : Stats
  byComplexity : ByComplexity
  breakdown : List VizTypeEntry
deriving DecidableEq, Repr

/-- Per-level count looked up in a `stats` dict. -/
def statsGet (s : Stats) (level : String) : Nat :=
  if level == "low" then s.low
  else if level == "medium" then s.medium
  else if level == "high" then s.high
  else if level == "critical" then s.critical
  else 0

/-- `ReportService._get_visualization_details`. -/
def vizDetails (objects : List Obj) (tree : ContainmentTree) (rels : List Rel)
    (featureRows : List FeatureRow) : VizDetails :=
  let fileContainer := fileToContainerType objects
  let idToObj := tree.idToObj
  -- viz → distinct queries used (USES/REFERENCES from a visualization to a query)
  let vizToQueries : List (String × List Id) := rels.foldl
    (fun m r =>
      let rt := normalizeRelType r.relationshipType
      if !USAGE_REL_TYPES.contains rt then m
      else
        match alGet idToObj r.sourceObjectId, alGet idToObj r.targetObjectId with
        | some srcObj, some tgtObj =>
            if !isVisualizationObject srcObj then m
            else if normalizeObjectType tgtObj.objectType != "query" then m
            else
              let vt := getVisualizationTypeForObject srcObj
              alSet m vt (slAdd (alGetD m vt []) r.targetObjectId)
        | _, _ => m)
    []
  -- viz → (count, dashboard roots, report roots)
  let vizCounts : List (String × (Nat × List RootKey × List RootKey)) := objects.foldl
    (fun m o =>
      if !isVisualizationObject o then m
      else
        let vt := getVisualizationTypeForObject o
        let e := alGetD m vt (0, [], [])
        let e2 :=
          match getRoot tree o.id with
          | (some rid, some "dashboard") => (e.1 + 1, slAdd e.2.1 (.obj rid), e.2.2)
          | (some rid, some "report") => (e.1 + 1, e.2.1, slAdd e.2.2 (.obj rid))
          | _ =>
              match alGet fileContainer o.fileId with
              | some "dashboard" => (e.1 + 1, slAdd e.2.1 (.file o.fileId), e.2.2)
              | some "report" => (e.1 + 1, e.2.1, slAdd e.2.2 (.file o.fileId))
              | _ => (e.1 + 1, e.2.1, e.2.2)
        alSet m vt e2)
    []
  let total := (vizCounts.map (fun kv => kv.2.1)).sum
  let lookup := getVisualizationComplexityLookup featureRows
  let sortedCounts := stableSortBy (fun a b => b.2.1 ≤ a.2.1) vizCounts
  let step := fun (acc : (List (String × List RootKey) × List (String × List RootKey))
        × List VizTypeEntry) (kv : String × (Nat × List RootKey × List RootKey)) =>
    let key := strLower (strTrim kv.1)
    let info := alGet lookup key
    let complexity :=
      match info with
      | some i =>
          match i.complexity with
          | some v => if pvalTruthy v then pvalStr v else "Unknown"
          | none => "Unknown"
      | none => "Unknown"
    let cKey := strLower (strTrim complexity)
    let maps :=
      if COMPLEXITY_LEVELS.contains cKey then
        (alSet acc.1.1 cKey (slUnion (alGetD acc.1.1 cKey []) kv.2.2.1),
         alSet acc.1.2 cKey (slUnion (alGetD acc.1.2 cKey []) kv.2.2.2))
      else acc.1
    (maps, acc.2 ++ [⟨kv.1, kv.2.1, complexity,
        (info.map (·.feasibility)).join, (info.map (·.description)).join,
        (info.map (·.recommended)).join,
        kv.2.2.1.length, kv.2.2.2.length, (alGetD vizToQueries kv.1 []).length⟩])
  let res := sortedCounts.foldl step ((([], []) : List (String × List RootKey) ×
      List (String × List RootKey)), [])
  let stats := res.2.foldl
    (fun st e =>
      let c := strLower (strTrim e.complexity)
      if c == "low" then { st with low := st.low + e.count }
      else if c == "medium" then { st with medium := st.medium + e.count }
      else if c == "high" then { st with high := st.high + e.count }
      else if c == "critical" then { st with critical := st.critical + e.count }
      else st)
    statsZero
  let byC : ByComplexity :=
    ⟨⟨stats.low, (alGetD res.1.1 "low" []).length, (alGetD res.1.2 "low" []).length⟩,
     ⟨stats.medium, (alGetD res.1.1 "medium" []).length, (alGetD res.1.2 "medium" []).length⟩,
     ⟨stats.high, (alGetD res.1.1 "high" []).length, (alGetD res.1.2 "high" []).length⟩,
     ⟨stats.critical, (alGetD res.1.1 "critical" []).length, (alGetD res.1.2 "critical" []).length⟩⟩
  ⟨total, none, stats, byC, res.2⟩

/-! ## Dashboards breakdown section -/

/-- One entry of the `dashboards` list. -/
structure DashboardEntry where
  dashboardId : String
  dashboardName : String
  complexity : String
  totalVisualizations : Nat
  vizLow : Nat
  vizMedium : Nat
  vizHigh : Nat
  vizCritical : Nat
  totalTabs : Nat
  totalMeasures : Nat
  totalDimensions : Nat
  totalCalculatedFields : Nat
  totalDataModules : Nat
  totalPackages : Nat
  totalDataSources : Nat
deriving DecidableEq, Repr

/-- The `dashboards_breakdown` section. -/
structure DashboardsBreakdown where
  totalDashboards : Nat
  stats : Stats
  dashboards : List DashboardEntry
deriving DecidableEq, Repr

/-- `_derive_complexity_from_viz`. -/
def deriveComplexityFromViz (low med high crit : Nat) : String :=
  if crit > 0 then "Critical"
  else if high > 0 then "High"
  else if med > 0 then "Medium"
  else if low > 0 then "Low"
  else "Unknown"

/-- Group object ids by their dashboard (resp. report) root and add every
dashboard (resp. report) object as a member of itself — the shared pattern of
`_get_dashboards_breakdown`, `_get_reports_breakdown` and `_get_appendix`. -/
def rootToIds (objects : List Obj) (tree : ContainmentTree) (kind : String) :
    List (Id × List Id) :=
  let m := objects.foldl
    (fun m o =>
      match getRoot tree o.id with
      | (some rid, some k) =>
          if k == kind then alSet m rid (slAdd (alGetD m rid []) o.id) else m
      | _ => m)
    []
  tree.idToObj.foldl
    (fun m kv =>
      if normalizeObjectType kv.2.objectType == kind then
        alSet m kv.1 (slAdd (alGetD m kv.1 []) kv.1)
      else m)
    m

/-- `(obj.name if obj else None) or str(id)`. -/
def nameOrId (o : Option Obj) (i : Id) : String :=
  match o with
  | some ob => if ob.name == "" then i else ob.name
  | none => i

/-- Complexity string looked up for one visualization member
(`((info.get("complexity") or "") or "").strip().lower()`). -/
def memberVizComplexity (lookup : List (String × VizInfo)) (o : Obj) : String :=
  let key := strLower (strTrim (getVisualizationTypeForObject o))
  let info := alGet lookup key
  let c := match info with | some i => pyStrOr i.complexity | none => ""
  strLower (strTrim c)

/-- Member tallies of one dashboard (the `counts` defaultdict of
`_get_dashboards_breakdown`). -/
structure DashCounts where
  visualizations : Nat := 0
  vizLow : Nat := 0
  vizMedium : Nat := 0
  vizHigh : Nat := 0
  vizCritical : Nat := 0
  tabs : Nat := 0
  measures : Nat := 0
  dimensions : Nat := 0
  calculatedFields : Nat := 0
  dataModules : Nat := 0
  packages : Nat := 0
  dataSources : Nat := 0
deriving DecidableEq, Repr

/-- One member's contribution to the dashboard tallies. -/
def dashCountsStep (lookup : List (String × VizInfo)) (idToObj : List (Id × Obj))
    (c : DashCounts) (oid : Id) : DashCounts :=
  match alGet idToObj oid with
  | none => c
  | some o =>
      let ot := normalizeObjectType o.objectType
      if isVisualizationObject o then
        let c := { c with visualizations := c.visualizations + 1 }
        let lvl := memberVizComplexity lookup o
        if lvl == "low" then { c with vizLow := c.vizLow + 1 }
        else if lvl == "medium" then { c with vizMedium := c.vizMedium + 1 }
        else if lvl == "high" then { c with vizHigh := c.vizHigh + 1 }
        else if lvl == "critical" then { c with vizCritical := c.vizCritical + 1 }
        else c
      else if ot == "tab" then { c with tabs := c.tabs + 1 }
      else if ot == "measure" then { c with measures := c.measures + 1 }
      else if ot == "dimension" then { c with dimensions := c.dimensions + 1 }
      else if ot == "calculated_field" then
        { c with calculatedFields := c.calculatedFields + 1 }
      else if ot == "data_module" then { c with dataModules := c.dataModules + 1 }
      else if ot == "package" then { c with packages := c.packages + 1 }
      else if ot == "data_source" || ot == "data_source_connection" then
        { c with dataSources := c.dataSources + 1 }
      else c

/-- One dashboard's entry. -/
def dashEntry (lookup : List (String × VizInfo)) (idToObj : List (Id × Obj))
    (kv : Id × List Id) : DashboardEntry :=
  let name := nameOrId (alGet idToObj kv.1) kv.1
  let c := kv.2.foldl (dashCountsStep lookup idToObj) {}
  { dashboardId := kv.1, dashboardName := name,
    complexity := deriveComplexityFromViz c.vizLow c.vizMedium c.vizHigh c.vizCritical,
    totalVisualizations := c.visualizations, vizLow := c.vizLow,
    vizMedium := c.vizMedium, vizHigh := c.vizHigh, vizCritical := c.vizCritical,
    totalTabs := c.tabs, totalMeasures := c.measures,
    totalDimensions := c.dimensions, totalCalculatedFields := c.calculatedFields,
    totalDataModules := c.dataModules, totalPackages := c.packages,
    totalDataSources := c.dataSources }

/-- `ReportService._get_dashboards_breakdown`. -/
def dashboardsBreakdown (objects : List Obj) (tree : ContainmentTree)
    (featureRows : List FeatureRow) : DashboardsBreakdown :=
  let dashboardToIds := rootToIds objects tree "dashboard"
  let lookup := getVisualizationComplexityLookup featureRows
  let entries := dashboardToIds.map (dashEntry lookup tree.idToObj)
  ⟨dashboardToIds.length, buildComplexityStats (entries.map (·.complexity)), entries⟩

/-! ## Reports breakdown section -/

/-- `ReportService._get_report_type`. -/
def getReportType (o : Obj) : String :=
  let t := pyOr (pyOr (pget o.properties "reportType") (pget o.properties "report_type"))
    (pget o.properties "cognosClass")
  match t with
  | some v => pvalStr v
  | none => "report"

/-- `(self._get_prop_any_case(props, "calculation_type") or "").strip() or "expression"`. -/
def calcTypeOf (props : Props) : String :=
  let s := strTrim (pyStrOr (getPropAnyCase props ["calculation_type"]))
  if s == "" then "expression" else s

/-- The raw expression value of a calculated field / measure / dimension. -/
def exprRawOf (props : Props) : Option PVal :=
  getPropAnyCase props ["expression", "formula", "calculation"]

/-- Decimal digits to a natural number. -/
def parseNatChars (cs : List Char) : Option Nat :=
  match cs with
  | [] => none
  | _ =>
      cs.foldl
        (fun acc c =>
          match acc with
          | none => none
          | some n => if '0' ≤ c && c ≤ '9' then some (n * 10 + (c.toNat - 48)) else none)
        (some 0)

/-- Python `int(v or 0)`.  (A non-numeric truthy string would raise in
Python; the parser only stores integer counts, and such a string is mapped
to 0 here.) -/
def pyIntOr0 (v : Option PVal) : Int :=
  if !optTruthy v then 0
  else
    match v with
    | some (.n k) => k
    | some (.b _) => 1
    | some (.s str) =>
        (match str.toList with
         | '-' :: t => (parseNatChars t).map (fun n => -(n : Int))
         | cs => (parseNatChars cs).map (fun n => (n : Int))).getD 0
    | none => 0

/-- The three `report_to_*` (or `dashboard_to_*`) distinct-member maps filled
by `add_external_by_type` / `add_by_type`. -/
structure ExtMaps where
  dms : List (Id × List Id)
  pkgs : List (Id × List Id)
  dss : List (Id × List Id)
deriving DecidableEq, Repr

/-- `add_external_by_type` of `_get_reports_breakdown`. -/
def addExternalByType (m : ExtMaps) (rid oid : Id) (ot : String) : ExtMaps :=
  if ot == "data_module" then
    { m with dms := alSet m.dms rid (slAdd (alGetD m.dms rid []) oid) }
  else if ot == "package" then
    { m with pkgs := alSet m.pkgs rid (slAdd (alGetD m.pkgs rid []) oid) }
  else if ot == "data_source" || ot == "data_source_connection" then
    { m with dss := alSet m.dss rid (slAdd (alGetD m.dss rid []) oid) }
  else m

/-- Forward usage adjacency `usage_children` (both endpoints known), as built
locally by `_get_reports_breakdown` / `_get_appendix`. -/
def usageChildrenMap (rels : List Rel) (idToObj : List (Id × Obj)) :
    List (Id × List Id) :=
  rels.foldl
    (fun m r =>
      let rt := normalizeRelType r.relationshipType
      if !USAGE_REL_TYPES.contains rt then m
      else if (alGet idToObj r.sourceObjectId).isSome &&
          (alGet idToObj r.targetObjectId).isSome then
        alApp m r.sourceObjectId r.targetObjectId
      else m)
    []

/-- Fuel dominating a `bfsPopOrder` run over adjacency lists `maps`. -/
def mapsFuel (maps : List (List (Id × List Id))) : Nat :=
  2 * (maps.map (fun m => (m.map (fun kv => kv.2.length)).sum)).sum + 2

/-- The relationship fallback of `_get_reports_breakdown` / `_get_appendix`:
attach objects that are not members of any report to the report root of the
first relationship source that resolves to one. -/
def reportFallbackMembers (objects : List Obj) (tree : ContainmentTree)
    (rbt : List (Id × List Id)) (reportToIds0 : List (Id × List Id)) :
    List (Id × List Id) :=
  let inReports0 := reportToIds0.foldl (fun s kv => slUnion s kv.2) []
  (objects.foldl
    (fun (st : List (Id × List Id) × List Id) o =>
      if st.2.contains o.id then st
      else
        match (alGetD rbt o.id []).findSome?
          (fun srcId =>
            match getRoot tree srcId with
            | (some rid, some "report") => some rid
            | _ => none) with
        | some rid => (alSet st.1 rid (slAdd (alGetD st.1 rid []) o.id), st.2 ++ [o.id])
        | none => st)
    (reportToIds0, inReports0)).1

/-- Member tallies of one report (the `counts` defaultdict of
`_get_reports_breakdown`). -/
structure RepCounts where
  visualizations : Nat := 0
  vizLow : Nat := 0
  vizMedium : Nat := 0
  vizHigh : Nat := 0
  vizCritical : Nat := 0
  pages : Nat := 0
  filters : Nat := 0
  parameters : Nat := 0
  sorts : Nat := 0
  prompts : Nat := 0
  calculatedFields : Nat := 0
  cfLow : Nat := 0
  cfMedium : Nat := 0
  cfHigh : Nat := 0
  cfCritical : Nat := 0
  measures : Nat := 0
  dimensions : Nat := 0
  tables : Int := 0
  columns : Int := 0
deriving DecidableEq, Repr

/-- One member's contribution to the report tallies. -/
def repCountsStep (lookup : List (String × VizInfo)) (idToObj : List (Id × Obj))
    (c : RepCounts) (oid : Id) : RepCounts :=
  match alGet idToObj oid with
  | none => c
  | some o =>
      let ot := normalizeObjectType o.objectType
      if isVisualizationObject o then
        let c := { c with visualizations := c.visualizations + 1 }
        let lvl := memberVizComplexity lookup o
        if lvl == "low" then { c with vizLow := c.vizLow + 1 }
        else if lvl == "medium" then { c with vizMedium := c.vizMedium + 1 }
        else if lvl == "high" then { c with vizHigh := c.vizHigh + 1 }
        else if lvl == "critical" then { c with vizCritical := c.vizCritical + 1 }
        else c
      else if ot == "page" then { c with pages := c.pages + 1 }
      else if ot == "filter" then { c with filters := c.filters + 1 }
      else if ot == "parameter" then { c with parameters := c.parameters + 1 }
      else if ot == "sort" then { c with sorts := c.sorts + 1 }
      else if ot == "prompt" then { c with prompts := c.prompts + 1 }
      else if ot == "calculated_field" then
        let c := { c with calculatedFields := c.calculatedFields + 1 }
        let cf := strLower (strTrim
          (calculatedFieldComplexity (calcTypeOf o.properties) (exprRawOf o.properties)))
        if cf == "low" then { c with cfLow := c.cfLow + 1 }
        else if cf == "medium" then { c with cfMedium := c.cfMedium + 1 }
        else if cf == "high" then { c with cfHigh := c.cfHigh + 1 }
        else if cf == "critical" then { c with cfCritical := c.cfCritical + 1 }
        else c
      else if ot == "measure" then { c with measures := c.measures + 1 }
      else if ot == "dimension" then { c with dimensions := c.dimensions + 1 }
      else if ot == "table" then { c with tables := c.tables + 1 }
      else if ot == "column" then { c with columns := c.columns + 1 }
      else c

/-- One entry of the `reports` list. -/
structure ReportEntry where
  reportId : String
  reportName : String
  reportType : String
  complexity : String
  totalVisualizations : Nat
  vizLow : Nat
  vizMedium : Nat
  vizHigh : Nat
  vizCritical : Nat
  cfLow : Nat
  cfMedium : Nat
  cfHigh : Nat
  cfCritical : Nat
  totalPages : Nat
  totalDataModules : Nat
  totalPackages : Nat
  totalDataSources : Nat
  totalTables : Int
  totalColumns : Int
  totalFilters : Nat
  totalParameters : Nat
  totalSorts : Nat
  totalPrompts : Nat
  totalCalculatedFields : Nat
  totalMeasures : Nat
  totalDimensions : Nat
deriving DecidableEq, Repr

/-- The `reports_breakdown` section. -/
structure ReportsBreakdown where
  totalReports : Nat
  stats : Stats
  reports : List ReportEntry
deriving DecidableEq, Repr

/-- One report's entry (the body of the entry loop of
`_get_reports_breakdown`). -/
def reportEntryOf (lookup : List (String × VizInfo)) (idToObj : List (Id × Obj))
    (ext : ExtMaps) (kv : Id × List Id) : ReportEntry :=
  let reportObj := alGet idToObj kv.1
  let name := nameOrId reportObj kv.1
  let reportType := match reportObj with | some o => getReportType o | none => "report"
  let c := kv.2.foldl (repCountsStep lookup idToObj) {}
  let c := (alGetD ext.dms kv.1 []).foldl
    (fun (c : RepCounts) mid =>
      match alGet idToObj mid with
      | some mobj =>
          { c with
            tables := c.tables + pyIntOr0 (pget mobj.properties "table_count"),
            columns := c.columns + pyIntOr0 (pget mobj.properties "column_count") }
      | none => c)
    c
  let complexity :=
    if strLower (strTrim reportType) == "interactivereport" then "Critical"
    else deriveComplexityFromViz c.vizLow c.vizMedium c.vizHigh c.vizCritical
  { reportId := kv.1, reportName := name, reportType := reportType,
    complexity := complexity,
    totalVisualizations := c.visualizations, vizLow := c.vizLow,
    vizMedium := c.vizMedium, vizHigh := c.vizHigh, vizCritical := c.vizCritical,
    cfLow := c.cfLow, cfMedium := c.cfMedium, cfHigh := c.cfHigh,
    cfCritical := c.cfCritical, totalPages := c.pages,
    totalDataModules := (alGetD ext.dms kv.1 []).length,
    totalPackages := (alGetD ext.pkgs kv.1 []).length,
    totalDataSources := (alGetD ext.dss kv.1 []).length,
    totalTables := c.tables, totalColumns := c.columns,
    totalFilters := c.filters, totalParameters := c.parameters,
    totalSorts := c.sorts, totalPrompts := c.prompts,
    totalCalculatedFields := c.calculatedFields,
    totalMeasures := c.measures, totalDimensions := c.dimensions }

/-- `ReportService._get_reports_breakdown`. -/
def reportsBreakdown (objects : List Obj) (tree : ContainmentTree) (rels : List Rel)
    (featureRows : List FeatureRow) : ReportsBreakdown :=
  let idToObj := tree.idToObj
  let reportToIds0 := rootToIds objects tree "report"
  let rbt := relationshipsByTarget rels
  let reportToIds := reportFallbackMembers objects tree rbt reportToIds0
  let usageChildren := usageChildrenMap rels idToObj
  -- (1) bottom-to-top over usage relationships
  let ext1 := rels.foldl
    (fun (m : ExtMaps) r =>
      let rt := normalizeRelType r.relationshipType
      if !USAGE_REL_TYPES.contains rt then m
      else if (alGet idToObj r.targetObjectId).isNone ||
          (alGet idToObj r.sourceObjectId).isNone then m
      else
        match alGet idToObj r.targetObjectId with
        | none => m
        | some tgtObj =>
            match getRoot tree r.sourceObjectId with
            | (some rid, some "report") =>
                addExternalByType m rid r.targetObjectId
                  (normalizeObjectType tgtObj.objectType)
            | _ => m)
    ⟨[], [], []⟩
  -- (2) top-down BFS from each report along usage children
  let ext2 := reportToIds.foldl
    (fun (m : ExtMaps) kv =>
      let visited := bfsPopOrder (fun n => alGetD usageChildren n [])
        (mapsFuel [usageChildren]) [kv.1] []
      visited.foldl
        (fun m node =>
          match alGet idToObj node with
          | some o => addExternalByType m kv.1 node (normalizeObjectType o.objectType)
          | none => m)
        m)
    ext1
  -- (3) containment members
  let ext := reportToIds.foldl
    (fun (m : ExtMaps) kv =>
      kv.2.foldl
        (fun m oid =>
          match alGet idToObj oid with
          | some o => addExternalByType m kv.1 oid (normalizeObjectType o.objectType)
          | none => m)
        m)
    ext2
  let lookup := getVisualizationComplexityLookup featureRows
  let entries := reportToIds.map (reportEntryOf lookup idToObj ext)
  ⟨reportToIds.length, buildComplexityStats (entries.map (·.complexity)), entries⟩

/-! ## Packages breakdown section -/

/-- `_get_package_root`: walk the containment chain upward until a package. -/
def getPackageRootAux (tree : ContainmentTree) : Nat → Option Id → List Id → Option Id
  | 0, _, _ => none
  | _, none, _ => none
  | fuel + 1, some cur, visited =>
      if cur == "" || visited.contains cur then none
      else
        let next := fun (_ : Unit) =>
          getPackageRootAux tree fuel (alGet tree.containsParent cur) (visited ++ [cur])
        match alGet tree.idToObj cur with
        | some o =>
            if normalizeObjectType o.objectType == "package" then some cur else next ()
        | none => next ()

/-- `ReportService._get_package_root`. -/
def getPackageRoot (tree : ContainmentTree) (objectId : Id) : Option Id :=
  getPackageRootAux tree (tree.containsParent.length + 2) (some objectId) []

def MAIN_DATA_MODULE_CLASSES : List String := ["module", "dataModule", "model"]

/-- `ReportService._is_main_data_module`. -/
def isMainDataModule (o : Obj) : Bool :=
  match pget o.properties "is_main_module" with
  | some (.b true) => true
  | _ =>
      match pyOr (pget o.properties "cognosClass") (pget o.properties "moduleType") with
      | some v => MAIN_DATA_MODULE_CLASSES.contains (strTrim (pvalStr v))
      | none => false

/-- `ReportService._get_data_module_type`. -/
def getDataModuleType (o : Obj) : String :=
  match pyOr (pget o.properties "cognosClass") (pget o.properties "moduleType") with
  | some v =>
      let s := strTrim (pvalStr v)
      if s == "" then "data_module" else s
  | none => "data_module"

/-- Neighbour function of `bfs_reach_nodes` in `_get_packages_breakdown`:
containment children plus the containment parent. -/
def packageBfsNbr (tree : ContainmentTree) (n : Id) : List Id :=
  alGetD tree.containsChildren n [] ++
    (match alGet tree.containsParent n with | some p => [p] | none => [])

/-- Fuel dominating `bfs_reach_nodes`. -/
def packageBfsFuel (tree : ContainmentTree) : Nat :=
  2 * ((tree.containsChildren.map (fun kv => kv.2.length)).sum +
    tree.containsParent.length) + 2

/-- For every dashboard/report root, mark every node reached by
`bfs_reach_nodes` with that root: node id → distinct root sets. -/
def nodeRootMaps (objects : List Obj) (tree : ContainmentTree) :
    List (Id × List Id) × List (Id × List Id) :=
  let roots := collectDashboardReportRoots objects tree
  let mark := fun (m : List (Id × List Id)) (rid : Id) =>
    let visited := bfsPopOrder (packageBfsNbr tree) (packageBfsFuel tree) [rid] []
    visited.foldl (fun m n => alSet m n (slAdd (alGetD m n []) rid)) m
  (roots.1.foldl mark [], roots.2.foldl mark [])

/-- `dashboards_and_reports_using` of `_get_packages_breakdown`. -/
def dashboardsAndReportsUsing (nodeDash nodeRep : List (Id × List Id))
    (memberIds : List Id) : Nat × Nat :=
  let dash := memberIds.foldl (fun s mid => slUnion s (alGetD nodeDash mid [])) []
  let rep := memberIds.foldl (fun s mid => slUnion s (alGetD nodeRep mid [])) []
  (dash.length, rep.length)

/-- One entry of the `packages` list. -/
structure PackageEntry where
  packageId : String
  packageName : String
  complexity : String
  totalDataModules : Nat
  mainDataModules : Nat
  dataModulesByType : List (String × Nat)
  totalTables : Nat
  totalColumns : Nat
  dashboardsUsingCount : Nat
  reportsUsingCount : Nat
deriving DecidableEq, Repr

/-- The `packages_breakdown` section. -/
structure PackagesBreakdown where
  totalPackages : Nat
  stats : Stats
  packages : List PackageEntry
deriving DecidableEq, Repr

/-- The package grouping of `_get_packages_breakdown`: members by package
root (`str(pkg_id)` keys coincide with the ids themselves), then every
package object as a member of itself. -/
def packageKeyToMembers (objects : List Obj) (tree : ContainmentTree) :
    List (Id × List Id) :=
  let m := objects.foldl
    (fun m o =>
      match getPackageRoot tree o.id with
      | some pkgId => alSet m pkgId (slAdd (alGetD m pkgId []) o.id)
      | none => m)
    []
  tree.idToObj.foldl
    (fun m kv =>
      if normalizeObjectType kv.2.objectType == "package" then
        alSet m kv.1 (slAdd (alGetD m kv.1 []) kv.1)
      else m)
    m

/-- One step of the name-deduplication pass of `_get_packages_breakdown`:
merge the group into an existing normalized-name entry or open a new one. -/
def pkgNameStep (idToObj : List (Id × Obj)) (nm : List (String × (Id × List Id)))
    (kv : Id × List Id) : List (String × (Id × List Id)) :=
  let name := nameOrId (alGet idToObj kv.1) kv.1
  let normName0 := strLower (strTrim name)
  let normName := if normName0 == "" then "_id_:" ++ kv.1 else normName0
  match alGet nm normName with
  | some prev => alSet nm normName (prev.1, slUnion prev.2 kv.2)
  | none => nm ++ [(normName, (kv.1, kv.2))]

/-- The second grouping pass: deduplicate package groups by normalized
display name (internal id as a last resort when the name is empty). -/
def packageNameGroups (idToObj : List (Id × Obj)) (keyGroups : List (Id × List Id)) :
    List (String × (Id × List Id)) :=
  keyGroups.foldl (pkgNameStep idToObj) []

/-- `ReportService._get_packages_breakdown` (its `relationships` parameter is
unused in the source). -/
def packagesBreakdown (objects : List Obj) (tree : ContainmentTree) :
    PackagesBreakdown :=
  let idToObj := tree.idToObj
  let nodeMaps := nodeRootMaps objects tree
  let nameGroups := packageNameGroups idToObj (packageKeyToMembers objects tree)
  let packagesList := nameGroups.map
    (fun g =>
      let pkgId := g.2.1
      let memberIds := g.2.2
      let name := nameOrId (alGet idToObj pkgId) pkgId
      let c := memberIds.foldl
        (fun (c : Nat × Nat × Nat × Nat × List (String × Nat)) oid =>
          match alGet idToObj oid with
          | none => c
          | some o =>
              let ot := normalizeObjectType o.objectType
              if ot == "data_module" then
                let mains := if isMainDataModule o then c.2.1 + 1 else c.2.1
                let kind := getDataModuleType o
                (c.1 + 1, mains, c.2.2.1, c.2.2.2.1,
                 alSet c.2.2.2.2 kind (alGetD c.2.2.2.2 kind 0 + 1))
          else if ot == "table" then (c.1, c.2.1, c.2.2.1 + 1, c.2.2.2)
              else if ot == "column" then (c.1, c.2.1, c.2.2.1, c.2.2.2.1 + 1, c.2.2.2.2)
              else c)
        (0, 0, 0, 0, [])
      let complexity := if c.1 > 2 then "Medium" else "Low"
      let using2 := dashboardsAndReportsUsing nodeMaps.1 nodeMaps.2 memberIds
      ({ packageId := pkgId, packageName := name, complexity := complexity,
         totalDataModules := c.1, mainDataModules := c.2.1,
         dataModulesByType := c.2.2.2.2, totalTables := c.2.2.1,
         totalColumns := c.2.2.2.1, dashboardsUsingCount := using2.1,
         reportsUsingCount := using2.2 } : PackageEntry))
  ⟨packagesList.length, buildComplexityStats (packagesList.map (·.complexity)),
   packagesList⟩

/-! ## Data source connections breakdown section -/

/-- Python `str.replace("_", "")`. -/
def dropUnderscores (s : String) : String :=
  String.mk (s.toList.filter (fun c => c != '_'))

/-- `_is_connection_object_type` (argument already normalized). -/
def isConnectionObjectType (ot : String) : Bool :=
  if ot == "" then false
  else
    let o := dropUnderscores ot
    o == "datasource" || o == "datasourceconnection"

/-- The connection-object filter of `_get_data_source_connections_breakdown`. -/
def isConnectionObj (o : Obj) : Bool :=
  let ot := normalizeObjectType o.objectType
  isConnectionObjectType ot || ot == "data_source" || ot == "data_source_connection"

/-- `_conn_is_data_source`. -/
def connIsDataSource (otype : String) : Bool :=
  let ot := normalizeObjectType otype
  ot == "data_source" || (ot != "" && dropUnderscores ot == "datasource")

/-- `_conn_is_data_source_connection`. -/
def connIsDataSourceConnection (otype : String) : Bool :=
  let ot := normalizeObjectType otype
  ot == "data_source_connection" || (ot != "" && dropUnderscores ot == "datasourceconnection")

/-- `ReportService._dedupe_by_store_id_or_name`: the grouping key. -/
def dedupeKey (oid : Id) (o : Obj) : String :=
  let fallback := fun (_ : Unit) =>
    let name := strTrim o.name
    if name != "" then "name:" ++ strLower name else "_id_:" ++ oid
  match pget o.properties "storeID" with
  | some v =>
      let sid := strTrim (pvalStr v)
      if sid != "" then strLower ("storeID:" ++ sid) else fallback ()
  | none => fallback ()

/-- `ReportService._dedupe_by_store_id_or_name`:
`(key_to_canonical, key_to_object_ids)`. -/
def dedupeByStoreIdOrName (objs : List (Id × Obj)) :
    List (String × (Id × Obj)) × List (String × List Id) :=
  objs.foldl
    (fun (st : List (String × (Id × Obj)) × List (String × List Id)) p =>
      let key := dedupeKey p.1 p.2
      let ids := alSet st.2 key (slAdd (alGetD st.2 key []) p.1)
      let canon := if (alGet st.1 key).isSome then st.1 else st.1 ++ [(key, p)]
      (canon, ids))
    ([], [])

/-- The display-safe connection properties of `_get_connection_properties`
(a `None`-valued key is dropped from the final dict). -/
structure ConnProps where
  identifier : Option String
  connectionType : Option String
  cognosClass : Option String
  connectionStringPreview : Option String
deriving DecidableEq, Repr

/-- `s or None`. -/
def strOrNone (s : String) : Option String :=
  if s == "" then none else some s

/-- `ReportService._get_connection_properties`. -/
def getConnectionProperties (o : Obj) : ConnProps :=
  let p := o.properties
  let ident0 :=
    match pget p "storeID" with
    | some v => strOrNone (strTrim (pvalStr v))
    | none => none
  let ident :=
    match pget p "identifier" with
    | some v => match ident0 with
        | some i => some i
        | none => strOrNone (strTrim (pvalStr v))
    | none => ident0
  let ct0 :=
    match pget p "data_source_type" with
    | some v => strOrNone (strTrim (pvalStr v))
    | none => none
  let ct :=
    match pget p "connection_type" with
    | some v => match ct0 with
        | some c => some c
        | none => strOrNone (strTrim (pvalStr v))
    | none => ct0
  let cc :=
    match pget p "cognosClass" with
    | some v => strOrNone (strTrim (pvalStr v))
    | none => none
  let preview :=
    match pget p "connection_string" with
    | some (.s cs) =>
        if cs == "" then none
        else
          let s := strTrim cs
          if s.length > 80 then some (String.mk (s.toList.take 80) ++ "…")
          else strOrNone s
    | _ => none
  ⟨ident, ct, cc, preview⟩

/-- The union neighbour function of `bfs_reach_connections` /
`bfs_reach_modules`: containment children, usage children, usage parents and
has-column parents. -/
def unionBfsNbr (tree : ContainmentTree) (ug : UsageGraphs) (n : Id) : List Id :=
  alGetD tree.containsChildren n [] ++ alGetD ug.usageChildren n [] ++
    alGetD ug.usageParents n [] ++ alGetD ug.hasColumnParents n []

/-- Fuel dominating a BFS over the union neighbour function. -/
def unionBfsFuel (tree : ContainmentTree) (ug : UsageGraphs) : Nat :=
  mapsFuel [tree.containsChildren, ug.usageChildren, ug.usageParents,
    ug.hasColumnParents]

/-- For every dashboard/report root, mark every reached node satisfying
`pred` with that root. -/
def reachRootMapsBy (nbr : Id → List Id) (fuel : Nat) (idToObj : List (Id × Obj))
    (pred : Obj → Bool) (roots : List Id × List Id) :
    List (Id × List Id) × List (Id × List Id) :=
  let mark := fun (m : List (Id × List Id)) (rid : Id) =>
    (bfsPopOrder nbr fuel [rid] []).foldl
      (fun m n =>
        match alGet idToObj n with
        | some o => if pred o then alSet m n (slAdd (alGetD m n []) rid) else m
        | none => m)
      m
  (roots.1.foldl mark [], roots.2.foldl mark [])

/-- One entry of the `connections` list. -/
structure ConnectionEntry where
  connectionId : String
  connectionName : String
  objectType : String
  complexity : String
  dashboardsUsingCount : Nat
  reportsUsingCount : Nat
  props : ConnProps
deriving DecidableEq, Repr

/-- The `data_source_connections_breakdown` section. -/
structure ConnectionsBreakdown where
  totalDataSources : Nat
  totalDataSourceConnections : Nat
  totalUniqueConnections : Nat
  totalDataModules : Nat
  totalPackages : Nat
  stats : Stats
  connections : List ConnectionEntry
deriving DecidableEq, Repr

/-- `ReportService._get_data_source_connections_breakdown`. -/
def connectionsBreakdown (objects : List Obj) (tree : ContainmentTree)
    (rels : List Rel) : ConnectionsBreakdown :=
  let idToObj := tree.idToObj
  let connectionObjects := (objects.filter isConnectionObj).map (fun o => (o.id, o))
  let ug := buildUsageGraphs rels idToObj
  let roots := collectDashboardReportRoots objects tree
  let nodeMaps := reachRootMapsBy (unionBfsNbr tree ug) (unionBfsFuel tree ug)
    idToObj isConnectionObj roots
  let dedup := dedupeByStoreIdOrName connectionObjects
  let totalDataSources :=
    (connectionObjects.filter (fun p => connIsDataSource p.2.objectType)).length
  let totalDataSourceConnections :=
    (connectionObjects.filter (fun p => connIsDataSourceConnection p.2.objectType)).length
  let totalDataModules :=
    (objects.filter (fun o => normalizeObjectType o.objectType == "data_module")).length
  let totalPackages :=
    (objects.filter (fun o => normalizeObjectType o.objectType == "package")).length
  let connectionsList := dedup.1.map
    (fun kc =>
      let connId := kc.2.1
      let o := kc.2.2
      let idsInKey := alGetD dedup.2 kc.1 [connId]
      let using2 := dashboardsAndReportsUsing nodeMaps.1 nodeMaps.2 idsInKey
      ({ connectionId := connId,
         connectionName := pyName o.name ("<unnamed " ++ o.objectType ++ ">"),
         objectType := normalizeObjectType o.objectType, complexity := "Medium",
         dashboardsUsingCount := using2.1, reportsUsingCount := using2.2,
         props := getConnectionProperties o } : ConnectionEntry))
  ⟨totalDataSources, totalDataSourceConnections, dedup.1.length, totalDataModules,
   totalPackages, ⟨0, connectionsList.length, 0, 0⟩, connectionsList⟩

/-! ## Data modules breakdown section -/

/-- One entry of the `data_modules` list. -/
structure DataModuleEntry where
  dataModuleId : String
  name : String
  complexity : String
  dashboardsUsingCount : Nat
  reportsUsingCount : Nat
  extra : Props
deriving DecidableEq, Repr

/-- The `data_modules_breakdown` section. -/
structure DataModulesBreakdown where
  totalDataModules : Nat
  totalMainDataModules : Nat
  totalUniqueModules : Nat
  stats : Stats
  dataModules : List DataModuleEntry
  mainDataModules : List DataModuleEntry
deriving DecidableEq, Repr

/-- The display-key allowlist of `_get_data_module_properties` (same
extraction behaviour as `_safe_props` without truncation). -/
def dataModulePropKeys : List String :=
  ["storeID", "cognosClass", "is_main_module", "table_count", "column_count",
   "calculated_field_count", "filter_count", "creationTime", "modificationTime",
   "owner", "displaySequence", "hidden", "tenantID"]

/-- `ReportService._get_data_modules_breakdown`. -/
def dataModulesBreakdown (objects : List Obj) (tree : ContainmentTree)
    (rels : List Rel) : DataModulesBreakdown :=
  let idToObj := tree.idToObj
  let moduleObjects := (objects.filter
    (fun o => normalizeObjectType o.objectType == "data_module")).map (fun o => (o.id, o))
  let ug := buildUsageGraphs rels idToObj
  let roots := collectDashboardReportRoots objects tree
  let nodeMaps := reachRootMapsBy (unionBfsNbr tree ug) (unionBfsFuel tree ug)
    idToObj (fun o => normalizeObjectType o.objectType == "data_module") roots
  let dedup := dedupeByStoreIdOrName moduleObjects
  let modulesList := dedup.1.map
    (fun kc =>
      let moduleId := kc.2.1
      let o := kc.2.2
      let idsInKey := alGetD dedup.2 kc.1 [moduleId]
      let using2 := dashboardsAndReportsUsing nodeMaps.1 nodeMaps.2 idsInKey
      ({ dataModuleId := moduleId, name := pyName o.name "<unnamed data module>",
         complexity := "Medium", dashboardsUsingCount := using2.1,
         reportsUsingCount := using2.2,
         extra := safeProps o.properties dataModulePropKeys none } : DataModuleEntry))
  let mainModulesList := (dedup.1.zip modulesList).foldl
    (fun acc p => if isMainDataModule p.1.2.2 then acc ++ [p.2] else acc) []
  ⟨moduleObjects.length,
   (moduleObjects.filter (fun p => isMainDataModule p.2)).length,
   dedup.1.length, ⟨0, modulesList.length, 0, 0⟩, modulesList, mainModulesList⟩

/-! ## Queries breakdown section -/

/-- One entry of the `queries` list. -/
structure QueryEntry where
  queryId : String
  name : String
  sourceType : PVal
  isSimple : Bool
  isComplex : Bool
  reportId : Option String
  reportName : Option String
  extra : Props
  complexity : String
  dashboardsContainingCount : Nat
  reportsContainingCount : Nat
deriving DecidableEq, Repr

/-- The `queries_breakdown` section. -/
structure QueriesBreakdown where
  totalQueries : Nat
  stats : Stats
  queries : List QueryEntry
  byComplexity : ByComplexity
deriving DecidableEq, Repr

/-- `ReportService._get_queries_breakdown`. -/
def queriesBreakdown (objects : List Obj) (tree : ContainmentTree) (rels : List Rel) :
    QueriesBreakdown :=
  let idToObj := tree.idToObj
  let fileContainer := fileToContainerType objects
  let rbt := relationshipsByTarget rels
  let acc := objects.foldl
    (fun (acc : Tracker × List QueryEntry) o =>
      if normalizeObjectType o.objectType != "query" then acc
      else
        let props := o.properties
        let sourceType : PVal :=
          match pget props "source_type" with
          | some v => if pvalTruthy v then v else .s "unknown"
          | none => .s "unknown"
        let rr := getRoot tree o.id
        let reportId : Option String :=
          match rr with
          | (some rid, some "report") => some rid
          | _ => none
        let reportName : Option String :=
          match reportId, rr.1 with
          | some _, some rid =>
              match alGet idToObj rid with
              | some ro => strOrNone (strTrim ro.name)
              | none => none
          | _, _ => none
        let isSimple := sourceType == .s "model" || sourceType == .s "sql"
        let isComplex := sourceType == .s "query_ref"
        let complexity := if isComplex then "Medium" else "Low"
        let res := resolveContainmentRoot o tree fileContainer rbt
        let tr := trackerAdd acc.1 complexity res.dashRootKey res.reportRootKey
        let extra := safeProps props ["cognosClass", "source_type", "sql_content"] (some 500)
        (tr, acc.2 ++ [⟨o.id, pyName o.name "<unnamed query>", sourceType, isSimple,
          isComplex, reportId, reportName, extra, complexity,
          res.dashboardsCount, res.reportsCount⟩]))
    (trackerInit, [])
  ⟨acc.2.length, buildComplexityStats (acc.2.map (·.complexity)), acc.2, trackerBy acc.1⟩

/-! ## Measures and dimensions breakdown sections -/

/-- `ReportService._build_parent_map` (a `parent_id` property is matched
against the id space directly; with string ids `str(pid)` adds nothing). -/
def buildParentMap (rels : List Rel) (idToObj : List (Id × Obj)) :
    List (Id × Id) :=
  let m := rels.foldl
    (fun m r =>
      let rt := normalizeRelType r.relationshipType
      if CONTAINMENT_REL_TYPES.contains rt || rt == "has_column" then
        if (alGet idToObj r.sourceObjectId).isSome &&
            (alGet idToObj r.targetObjectId).isSome then
          alSet m r.targetObjectId r.sourceObjectId
        else m
      else m)
    []
  idToObj.foldl
    (fun m kv =>
      match pget kv.2.properties "parent_id" with
      | some v =>
          let cand := pvalStr v
          if (alGet idToObj cand).isSome then alSet m kv.1 cand else m
      | none => m)
    m

/-- `ReportService._get_parent_module_id`: walk `parent_map` upward to the
first data module. -/
def getParentModuleAux (parentMap : List (Id × Id)) (idToObj : List (Id × Obj)) :
    Nat → Option Id → List Id → Option Id × Option String
  | 0, _, _ => (none, none)
  | _, none, _ => (none, none)
  | fuel + 1, some cur, seen =>
      if cur == "" || seen.contains cur then (none, none)
      else
        let next := fun (_ : Unit) =>
          getParentModuleAux parentMap idToObj fuel (alGet parentMap cur) (seen ++ [cur])
        match alGet idToObj cur with
        | some o =>
            if normalizeObjectType o.objectType == "data_module" then
              (some cur, strOrNone (strTrim o.name))
            else next ()
        | none => next ()

/-- `ReportService._get_parent_module_id`. -/
def getParentModuleId (oid : Id) (parentMap : List (Id × Id))
    (idToObj : List (Id × Obj)) : Option Id × Option String :=
  getParentModuleAux parentMap idToObj (parentMap.length + 2) (some oid) []

/-- One entry of the `measures` list. -/
structure MeasureEntry where
  measureId : String
  name : String
  aggregation : Option PVal
  isSimple : Bool
  isComplex : Bool
  parentModuleId : Option String
  parentModuleName : Option String
  extra : Props
  complexity : String
  dashboardsContainingCount : Nat
  reportsContainingCount : Nat
deriving DecidableEq, Repr

/-- The `measures_breakdown` section (it carries no `stats` map). -/
structure MeasuresBreakdown where
  totalMeasures : Nat
  measures : List MeasureEntry
  byComplexity : ByComplexity
deriving DecidableEq, Repr

/-- `ReportService._get_measures_breakdown`. -/
def measuresBreakdown (objects : List Obj) (tree : ContainmentTree) (rels : List Rel) :
    MeasuresBreakdown :=
  let idToObj := tree.idToObj
  let parentMap := buildParentMap rels idToObj
  let fileContainer := fileToContainerType objects
  let rbt := relationshipsByTarget rels
  let acc := objects.foldl
    (fun (acc : Tracker × List MeasureEntry) o =>
      if normalizeObjectType o.objectType != "measure" then acc
      else
        let props := o.properties
        let agg := pyOr (pget props "regularAggregate") (pget props "aggregation")
        let aggStr := pyStrOr agg
        let isSimple := strLower aggStr == "" || strLower aggStr == "none" ||
          strLower aggStr == "none "
        let pm := getParentModuleId o.id parentMap idToObj
        let res := resolveContainmentRoot o tree fileContainer rbt
        let extra := safeProps props
          ["cognosClass", "regularAggregate", "datatype", "usage", "expression"]
          (some 300)
        let complexity := calculatedFieldComplexity "expression" (exprRawOf props)
        let tr := trackerAdd acc.1 complexity res.dashRootKey res.reportRootKey
        (tr, acc.2 ++ [⟨o.id, pyName o.name "<unnamed measure>",
          (if optTruthy agg then agg else none), isSimple, !isSimple,
          pm.1, pm.2, extra, complexity, res.dashboardsCount, res.reportsCount⟩]))
    (trackerInit, [])
  ⟨acc.2.length, acc.2, trackerBy acc.1⟩

/-- One entry of the `dimensions` list. -/
structure DimensionEntry where
  dimensionId : String
  name : String
  usage : Option PVal
  isSimple : Bool
  isComplex : Bool
  parentModuleId : Option String
  parentModuleName : Option String
  extra : Props
  complexity : String
  dashboardsContainingCount : Nat
  reportsContainingCount : Nat
deriving DecidableEq, Repr

/-- The `dimensions_breakdown` section (it carries no `stats` map). -/
structure DimensionsBreakdown where
  totalDimensions : Nat
  dimensions : List DimensionEntry
  byComplexity : ByComplexity
deriving DecidableEq, Repr

/-- `ReportService._get_dimensions_breakdown`. -/
def dimensionsBreakdown (objects : List Obj) (tree : ContainmentTree) (rels : List Rel) :
    DimensionsBreakdown :=
  let idToObj := tree.idToObj
  let parentMap := buildParentMap rels idToObj
  let fileContainer := fileToContainerType objects
  let rbt := relationshipsByTarget rels
  let acc := objects.foldl
    (fun (acc : Tracker × List DimensionEntry) o =>
      if normalizeObjectType o.objectType != "dimension" then acc
      else
        let props := o.properties
        let usage := pyOr (pget props "usage") (pget props "data_usage")
        let usageStr := pyStrOr usage
        let isSimple := strLower usageStr == "attribute" ||
          strLower usageStr == "dimension" || strLower usageStr == ""
        let pm := getParentModuleId o.id parentMap idToObj
        let res := resolveContainmentRoot o tree fileContainer rbt
        let extra := safeProps props ["cognosClass", "usage", "datatype", "expression"]
          (some 300)
        let complexity := calculatedFieldComplexity "expression" (exprRawOf props)
        let tr := trackerAdd acc.1 complexity res.dashRootKey res.reportRootKey
        (tr, acc.2 ++ [⟨o.id, pyName o.name "<unnamed dimension>",
          (if optTruthy usage then usage else none), isSimple, !isSimple,
          pm.1, pm.2, extra, complexity, res.dashboardsCount, res.reportsCount⟩]))
    (trackerInit, [])
  ⟨acc.2.length, acc.2, trackerBy acc.1⟩

/-! ## Generic breakdown instantiations -/

/-- The complexity function of `_get_calculated_fields_breakdown`. -/
def calculatedFieldsComplexityFn (_o : Obj) (props : Props) : String :=
  calculatedFieldComplexity (calcTypeOf props) (exprRawOf props)

/-- `ReportService._get_calculated_fields_breakdown`. -/
def calculatedFieldsBreakdown (objects : List Obj) (tree : ContainmentTree)
    (rels : List Rel) : GenericBreakdown :=
  genericBreakdown objects tree rels "calculated_field"
    (some calculatedFieldsComplexityFn)
    ["expression", "calculation_type", "cognosClass"] (some 500) none none

/-- The complexity function of `_get_filters_breakdown`
(`props.get("is_complex") is True`). -/
def filtersComplexityFn (_o : Obj) (props : Props) : String :=
  if pget props "is_complex" == some (.b true) then "Medium" else "Low"

/-- The `item_builder` of `_get_filters_breakdown`: parent fields resolved
against the id space (`ExtractedObject` has no `parent_id` attribute, so only
the property is consulted). -/
def filtersItemBuilder (idToObj : List (Id × Obj)) (_o : Obj) (props : Props)
    (_d _r : Nat) : Props :=
  match pget props "parent_id" with
  | some v =>
      if pvalTruthy v then
        let pid := pvalStr v
        match alGet idToObj pid with
        | some po =>
            [("parent_name", .s (pyName po.name pid)),
             ("parent_id", .s pid),
             ("associated_container_type", .s (normalizeObjectType po.objectType))]
        | none => []
      else []
  | none => []

/-- `ReportService._get_filters_breakdown`. -/
def filtersBreakdown (objects : List Obj) (tree : ContainmentTree)
    (rels : List Rel) : GenericBreakdown :=
  genericBreakdown objects tree rels "filter" (some filtersComplexityFn)
    ["expression", "filter_type", "filter_scope", "filter_style",
     "is_simple", "is_complex", "ref_data_item", "filter_definition_summary",
     "postAutoAggregation", "referenced_columns", "parameter_references", "cognosClass"]
    (some 500) (some (filtersItemBuilder tree.idToObj)) none

/-- `ReportService._get_parameters_breakdown`. -/
def parametersBreakdown (objects : List Obj) (tree : ContainmentTree)
    (rels : List Rel) : GenericBreakdown :=
  genericBreakdown objects tree rels "parameter" none
    ["parameter_type", "variable_type", "cognosClass"] none none (some "Medium")

/-- `ReportService._get_sorts_breakdown`. -/
def sortsBreakdown (objects : List Obj) (tree : ContainmentTree)
    (rels : List Rel) : GenericBreakdown :=
  genericBreakdown objects tree rels "sort" none
    ["direction", "sorted_column", "sort_items", "cognosClass"] none none (some "Low")

/-- `ReportService._get_prompts_breakdown`. -/
def promptsBreakdown (objects : List Obj) (tree : ContainmentTree)
    (rels : List Rel) : GenericBreakdown :=
  genericBreakdown objects tree rels "prompt" none
    ["prompt_type", "value", "cognosClass"] (some 500) none (some "Medium")

/-! ## Complex analysis -/

/-- One entry of a standard `complex_analysis` entity list. -/
structure CAItem where
  complexity : String
  count : Nat
  dashboardsContainingCount : Nat
  reportsContainingCount : Nat
  feature : Option String
deriving DecidableEq, Repr

/-- One entry of the `complex_analysis["dashboard"]` list. -/
structure CADashItem where
  complexity : String
  dashboardsContainingCount : Nat
  feature : Option String
deriving DecidableEq, Repr

/-- One entry of the `complex_analysis["report"]` list. -/
structure CAReportItem where
  complexity : String
  reportsContainingCount : Nat
  feature : Option String
deriving DecidableEq, Repr

/-- The `complex_analysis` dict (entities in source insertion order). -/
structure ComplexAnalysis where
  visualization : List CAItem
  calculatedField : List CAItem
  filter : List CAItem
  measure : List CAItem
  dimension : List CAItem
  parameter : List CAItem
  sort : List CAItem
  prompt : List CAItem
  query : List CAItem
  dashboard : List CADashItem
  report : List CAReportItem
deriving DecidableEq, Repr

/-- Level lookup in a `by_complexity` dict. -/
def bcGet (bc : ByComplexity) (level : String) : LevelEntry :=
  if level == "low" then bc.low
  else if level == "medium" then bc.medium
  else if level == "high" then bc.high
  else bc.critical

/-- The four standard `complex_analysis` items of one entity. -/
def caItems (bc : ByComplexity) (lookup : List ((String × String) × Option String))
    (entity : String) : List CAItem :=
  COMPLEXITY_LEVELS.map
    (fun level =>
      let e := bcGet bc level
      ⟨level, e.count, e.dashboardsContainingCount, e.reportsContainingCount,
       (alGet lookup (entity, level)).join⟩)

/-- `ReportService._build_complex_analysis`. -/
def buildComplexAnalysis (viz : VizDetails) (cf fl pa so pr : GenericBreakdown)
    (me : MeasuresBreakdown) (di : DimensionsBreakdown) (qu : QueriesBreakdown)
    (da : DashboardsBreakdown) (re : ReportsBreakdown)
    (caRows : List ComplexFeatureRow) : ComplexAnalysis :=
  let lookup := getComplexAnalysisFeatureLookup caRows
  { visualization := caItems viz.byComplexity lookup "visualization",
    calculatedField := caItems cf.byComplexity lookup "calculated_field",
    filter := caItems fl.byComplexity lookup "filter",
    measure := caItems me.byComplexity lookup "measure",
    dimension := caItems di.byComplexity lookup "dimension",
    parameter := caItems pa.byComplexity lookup "parameter",
    sort := caItems so.byComplexity lookup "sort",
    prompt := caItems pr.byComplexity lookup "prompt",
    query := caItems qu.byComplexity lookup "query",
    dashboard := COMPLEXITY_LEVELS.map
      (fun level => ⟨level, statsGet da.stats level,
        (alGet lookup ("dashboard", level)).join⟩),
    report := COMPLEXITY_LEVELS.map
      (fun level => ⟨level, statsGet re.stats level,
        (alGet lookup ("report", level)).join⟩) }

/-! ## Summary

The source formats percentages as Python floats
(`round(100.0 * d / t, 1)` and `f"{pct:.1f}"`).  Floating point is
abstracted to exact arithmetic here: a percentage is carried as its number
of tenths, computed with round-half-to-even on the exact rational
`1000 * d / t` (the float detour can differ only on representation-error
half-way corners, which none of the verified claims touch). -/

/-- ASCII upper-casing of one character. -/
def ucChar (c : Char) : Char :=
  if 'a' ≤ c && c ≤ 'z' then Char.ofNat (c.toNat - 32) else c

/-- Python `str.capitalize()`. -/
def capitalizeStr (s : String) : String :=
  match s.toList with
  | [] => ""
  | c :: t => String.mk (ucChar c :: t.map lcChar)

def isAlphaChar (c : Char) : Bool :=
  ('a' ≤ c && c ≤ 'z') || ('A' ≤ c && c ≤ 'Z')

/-- Python `str.title()` on the alphabetic/underscore names used here. -/
def titleChars : List Char → Bool → List Char
  | [], _ => []
  | c :: t, prevAlpha =>
      let a := isAlphaChar c
      (if a && !prevAlpha then ucChar c else if a then lcChar c else c) ::
        titleChars t a

def strTitle (s : String) : String :=
  String.mk (titleChars s.toList false)

/-- Python `str.replace("_", " ")`. -/
def underscoresToSpaces (s : String) : String :=
  String.mk (s.toList.map (fun c => if c == '_' then ' ' else c))

/-- `round(100.0 * count / total, 1)` in tenths of a percent
(round-half-to-even, `total > 0`). -/
def pctTenths (count total : Nat) : Nat :=
  let n := 1000 * count
  let q := n / total
  let r := n % total
  if 2 * r < total then q
  else if total < 2 * r then q + 1
  else if q % 2 == 0 then q else q + 1

/-- `f"{pct:.1f}"`. -/
def fmtTenths (t : Nat) : String :=
  toString (t / 10) ++ "." ++ toString (t % 10)

/-- One `key_findings` entry (percentages in tenths). -/
structure KeyFinding where
  featureArea : String
  complexity : String
  count : Nat
  dashboardsSummary : String
  reportsSummary : String
  dashboardsPercentTenths : Nat
  reportsPercentTenths : Nat
deriving DecidableEq, Repr

/-- One `high_level_complexity_overview` entry. -/
structure OverviewEntry where
  complexity : String
  visualizationCount : Nat
  dashboardCount : Nat
  reportCount : Nat
deriving DecidableEq, Repr

/-- One `inventory` entry. -/
structure InventoryEntry where
  assetType : String
  count : Nat
deriving DecidableEq, Repr

/-- The `summary` section. -/
structure Summary where
  keyFindings : List KeyFinding
  highLevelComplexityOverview : List OverviewEntry
  inventory : List InventoryEntry
deriving DecidableEq, Repr

/-- A `complex_analysis` entity item seen by `_build_summary`:
`(complexity, value at the count key, dashboards_containing_count,
reports_containing_count)` with absent keys read as 0. -/
abbrev SummaryItem := String × Nat × Nat × Nat

def caItemView (i : CAItem) : SummaryItem :=
  (i.complexity, i.count, i.dashboardsContainingCount, i.reportsContainingCount)

def caDashItemView (i : CADashItem) : SummaryItem :=
  (i.complexity, i.dashboardsContainingCount, i.dashboardsContainingCount, 0)

def caReportItemView (i : CAReportItem) : SummaryItem :=
  (i.complexity, i.reportsContainingCount, 0, i.reportsContainingCount)

/-- The per-feature-area body of the `key_findings` loop. -/
def keyFindingFor (entity : String) (items : List SummaryItem)
    (totalDashboards totalReports : Nat) : Option KeyFinding :=
  let totalCount := (items.map (fun i => i.2.1)).sum
  if totalCount == 0 then none
  else
    let rep :=
      match ["critical", "high", "medium", "low"].findSome?
        (fun level =>
          items.findSome?
            (fun (it : SummaryItem) =>
              if strLower (strTrim it.1) == level && it.2.1 > 0 then
                some (capitalizeStr level, it.2.1, it.2.2.1, it.2.2.2)
              else none)) with
      | some r => r
      | none =>
          match items.findSome?
            (fun (it : SummaryItem) =>
              if it.2.1 > 0 then
                some (capitalizeStr (strTrim it.1), it.2.1, it.2.2.1, it.2.2.2)
              else none) with
          | some r => r
          | none => ("Low", 0, 0, 0)
    let pctDash := if totalDashboards != 0 then pctTenths rep.2.2.1 totalDashboards else 0
    let pctRep := if totalReports != 0 then pctTenths rep.2.2.2 totalReports else 0
    some
      { featureArea := strTitle (underscoresToSpaces entity),
        complexity := rep.1, count := rep.2.1,
        dashboardsSummary := "Used in " ++ fmtTenths pctDash ++ "% of Dashboards",
        reportsSummary := "Used in " ++ fmtTenths pctRep ++ "% of Reports",
        dashboardsPercentTenths := pctDash, reportsPercentTenths := pctRep }

def caFind (items : List CAItem) (level : String) : Option CAItem :=
  items.find? (fun i => strLower (strTrim i.complexity) == level)

def caDashFind (items : List CADashItem) (level : String) : Option CADashItem :=
  items.find? (fun i => strLower (strTrim i.complexity) == level)

def caReportFind (items : List CAReportItem) (level : String) : Option CAReportItem :=
  items.find? (fun i => strLower (strTrim i.complexity) == level)

/-- `ReportService._build_summary`. -/
def buildSummary (ca : ComplexAnalysis) (viz : VizDetails) (da : DashboardsBreakdown)
    (re : ReportsBreakdown) (pk : PackagesBreakdown) (dm : DataModulesBreakdown)
    (cn : ConnectionsBreakdown) (cf fl pa so pr : GenericBreakdown)
    (qu : QueriesBreakdown) (me : MeasuresBreakdown) (di : DimensionsBreakdown) :
    Summary :=
  let totalDashboards := da.totalDashboards
  let totalReports := re.totalReports
  let entityItems : List (String × List SummaryItem) :=
    [("visualization", ca.visualization.map caItemView),
     ("dashboard", ca.dashboard.map caDashItemView),
     ("report", ca.report.map caReportItemView),
     ("calculated_field", ca.calculatedField.map caItemView),
     ("filter", ca.filter.map caItemView),
     ("measure", ca.measure.map caItemView),
     ("dimension", ca.dimension.map caItemView),
     ("parameter", ca.parameter.map caItemView),
     ("sort", ca.sort.map caItemView),
     ("prompt", ca.prompt.map caItemView),
     ("query", ca.query.map caItemView)]
  let keyFindings := entityItems.foldl
    (fun acc ei =>
      match keyFindingFor ei.1 ei.2 totalDashboards totalReports with
      | some kf => acc ++ [kf]
      | none => acc)
    []
  let overview := COMPLEXITY_LEVELS.map
    (fun level =>
      ({ complexity := capitalizeStr level,
         visualizationCount := (caFind ca.visualization level).map (·.count) |>.getD 0,
         dashboardCount :=
           (caDashFind ca.dashboard level).map (·.dashboardsContainingCount) |>.getD 0,
         reportCount :=
           (caReportFind ca.report level).map (·.reportsContainingCount) |>.getD 0 }
        : OverviewEntry))
  let inventory : List InventoryEntry :=
    [⟨"Dashboard", da.totalDashboards⟩, ⟨"Report", re.totalReports⟩,
     ⟨"Visualization", viz.totalVisualization⟩, ⟨"Package", pk.totalPackages⟩,
     ⟨"Data Module", dm.totalDataModules⟩,
     ⟨"Data Source / Connection", cn.totalUniqueConnections⟩,
     ⟨"Calculated Field", cf.total⟩, ⟨"Filter", fl.total⟩,
     ⟨"Parameter", pa.total⟩, ⟨"Sort", so.total⟩, ⟨"Prompt", pr.total⟩,
     ⟨"Query", qu.totalQueries⟩, ⟨"Measure", me.totalMeasures⟩,
     ⟨"Dimension", di.totalDimensions⟩]
  ⟨keyFindings, overview, inventory⟩

/-! ## Challenges -/

/-- One per-visualization challenge entry. -/
structure ChallengeEntry where
  visualization : String
  visualizationType : String
  complexity : String
  description : Option PVal
  recommended : Option PVal
  dashboardOrReportName : Option String
deriving DecidableEq, Repr

/-- The `challenges` section. -/
structure Challenges where
  visualization : List ChallengeEntry
deriving DecidableEq, Repr

/-- `ReportService._get_challenges`. -/
def getChallenges (objects : List Obj) (tree : ContainmentTree)
    (featureRows : List FeatureRow) : Challenges :=
  let idToObj := tree.idToObj
  let fileContainer := fileToContainerType objects
  let lookup := getVisualizationComplexityLookup featureRows
  let entries := objects.foldl
    (fun (acc : List ChallengeEntry) o =>
      if !isVisualizationObject o then acc
      else
        let vizType := getVisualizationTypeForObject o
        let info := alGet lookup (strLower (strTrim vizType))
        let c0 := match info with | some i => pyStrOr i.complexity | none => ""
        let complexity := if c0 == "" then "Unknown" else c0
        let dorName : Option String :=
          match getRoot tree o.id with
          | (some rid, some "dashboard") => some (nameOrId (alGet idToObj rid) rid)
          | (some rid, some "report") => some (nameOrId (alGet idToObj rid) rid)
          | _ =>
              match (if o.fileId == "" then none else alGet fileContainer o.fileId) with
              | some ctr => some ("Unknown (" ++ ctr ++ ")")
              | none => none
        acc ++ [⟨pyName o.name o.id, (if vizType == "" then "Unknown" else vizType),
                 complexity,
                 (match info with | some i => i.description | none => none),
                 (match info with | some i => i.recommended | none => none),
                 dorName⟩])
    []
  let filtered := entries.filter
    (fun c => ["critical", "high", "medium"].contains (strLower (strTrim c.complexity)))
  let orderIdx := fun (c : ChallengeEntry) =>
    let k := strLower (strTrim c.complexity)
    if k == "critical" then 0 else if k == "high" then 1
    else if k == "medium" then 2 else 99
  ⟨stableSortBy (fun a b => orderIdx a ≤ orderIdx b) filtered⟩

/-! ## Appendix -/

/-- One appendix entry for a dashboard or report. -/
structure AppendixEntry where
  name : String
  package : List String
  dataModule : List String
  owner : String
deriving DecidableEq, Repr

/-- The `appendix` section. -/
structure Appendix where
  dashboards : List AppendixEntry
  reports : List AppendixEntry
deriving DecidableEq, Repr

/-- `ReportService._get_owner`. -/
def getOwner (o : Option Obj) : String :=
  match o with
  | none => ""
  | some ob =>
      strTrim (pyStrOr (pyOr (pget ob.properties "owner") (pget ob.properties "Owner")))

/-- `sorted(set(...))` of the display names of member objects (skipping
unknown ids). -/
def memberNameList (idToObj : List (Id × Obj)) (ids : List Id) : List String :=
  sortedStrSet (ids.foldl
    (fun acc pid =>
      match alGet idToObj pid with
      | some o =>
          let t := strTrim (if o.name == "" then pid else o.name)
          acc ++ [if t == "" then pid else t]
      | none => acc)
    [])

/-- `add_by_type` of `_get_appendix`: `(packages map, data-modules map)`. -/
def addByType2 (m : List (Id × List Id) × List (Id × List Id)) (rootId oid : Id)
    (ot : String) : List (Id × List Id) × List (Id × List Id) :=
  if ot == "package" then (alSet m.1 rootId (slAdd (alGetD m.1 rootId []) oid), m.2)
  else if ot == "data_module" then
    (m.1, alSet m.2 rootId (slAdd (alGetD m.2 rootId []) oid))
  else m

/-- Bottom-to-top pass of `_get_appendix` / `_get_reports_breakdown`: targets
of usage relationships whose source resolves to a root of `kind`. -/
def bottomToTopPass (rels : List Rel) (idToObj : List (Id × Obj))
    (tree : ContainmentTree) (kind : String)
    (m : List (Id × List Id) × List (Id × List Id)) :
    List (Id × List Id) × List (Id × List Id) :=
  rels.foldl
    (fun m r =>
      let rt := normalizeRelType r.relationshipType
      if !USAGE_REL_TYPES.contains rt then m
      else if (alGet idToObj r.targetObjectId).isNone ||
          (alGet idToObj r.sourceObjectId).isNone then m
      else
        match alGet idToObj r.targetObjectId with
        | none => m
        | some tgtObj =>
            match getRoot tree r.sourceObjectId with
            | (some rid, some k) =>
                if k == kind then
                  addByType2 m rid r.targetObjectId (normalizeObjectType tgtObj.objectType)
                else m
            | _ => m)
    m

/-- Top-down usage BFS pass of `_get_appendix`. -/
def topDownPass (usageChildren : List (Id × List Id)) (idToObj : List (Id × Obj))
    (rootIds : List Id) (m : List (Id × List Id) × List (Id × List Id)) :
    List (Id × List Id) × List (Id × List Id) :=
  rootIds.foldl
    (fun m rid =>
      (bfsPopOrder (fun n => alGetD usageChildren n []) (mapsFuel [usageChildren])
        [rid] []).foldl
        (fun m node =>
          match alGet idToObj node with
          | some o => addByType2 m rid node (normalizeObjectType o.objectType)
          | none => m)
        m)
    m

/-- Containment pass of `_get_appendix`. -/
def containmentPass (idToObj : List (Id × Obj)) (rootToIdsM : List (Id × List Id))
    (m : List (Id × List Id) × List (Id × List Id)) :
    List (Id × List Id) × List (Id × List Id) :=
  rootToIdsM.foldl
    (fun m kv =>
      kv.2.foldl
        (fun m oid =>
          match alGet idToObj oid with
          | some o => addByType2 m kv.1 oid (normalizeObjectType o.objectType)
          | none => m)
        m)
    m

/-- `ReportService._get_appendix`. -/
def getAppendix (objects : List Obj) (tree : ContainmentTree) (rels : List Rel) :
    Appendix :=
  let idToObj := tree.idToObj
  let usageChildren := usageChildrenMap rels idToObj
  -- dashboards: containment, then bottom-to-top, then top-down
  let dashboardToIds := rootToIds objects tree "dashboard"
  let md := containmentPass idToObj dashboardToIds ([], [])
  let md := bottomToTopPass rels idToObj tree "dashboard" md
  let md := topDownPass usageChildren idToObj (dashboardToIds.map (·.1)) md
  let dashboardsList := dashboardToIds.map
    (fun kv =>
      ({ name := nameOrId (alGet idToObj kv.1) kv.1,
         package := memberNameList idToObj (alGetD md.1 kv.1 []),
         dataModule := memberNameList idToObj (alGetD md.2 kv.1 []),
         owner := getOwner (alGet idToObj kv.1) } : AppendixEntry))
  -- reports: fallback membership, then bottom-to-top, top-down, containment
  let reportToIds := reportFallbackMembers objects tree (relationshipsByTarget rels)
    (rootToIds objects tree "report")
  let mr := bottomToTopPass rels idToObj tree "report" ([], [])
  let mr := topDownPass usageChildren idToObj (reportToIds.map (·.1)) mr
  let mr := containmentPass idToObj reportToIds mr
  let reportsList := reportToIds.map
    (fun kv =>
      ({ name := nameOrId (alGet idToObj kv.1) kv.1,
         package := memberNameList idToObj (alGetD mr.1 kv.1 []),
         dataModule := memberNameList idToObj (alGetD mr.2 kv.1 []),
         owner := getOwner (alGet idToObj kv.1) } : AppendixEntry))
  ⟨dashboardsList, reportsList⟩

/-! ## Top-level report -/

/-- The full report structure returned by `generate_report_for_assessment`. -/
structure Report where
  assessmentId : String
  vizDetails : VizDetails
  dashboards : DashboardsBreakdown
  reports : ReportsBreakdown
  packages : PackagesBreakdown
  dataSourceConnections : ConnectionsBreakdown
  calculatedFields : GenericBreakdown
  filters : GenericBreakdown
  parameters : GenericBreakdown
  sorts : GenericBreakdown
  prompts : GenericBreakdown
  dataModules : DataModulesBreakdown
  queries : QueriesBreakdown
  measures : MeasuresBreakdown
  dimensions : DimensionsBreakdown
  complexAnalysis : ComplexAnalysis
  summary : Summary
  challenges : Challenges
  appendix : Appendix
  usageStats : Option PVal
deriving DecidableEq, Repr

/-- `ReportService.generate_report_for_assessment`: the whole pipeline as a
pure function of the assessment snapshot (`objects`, `rels`, the passthrough
`usageStats`) and the two cached BigQuery reference tables. -/
def generateReportForAssessment (assessmentId : String) (objects : List Obj)
    (rels : List Rel) (featureRows : List FeatureRow)
    (caRows : List ComplexFeatureRow) (usageStats : Option PVal) : Report :=
  let tree := buildContainmentTree objects rels
  let viz := vizDetails objects tree rels featureRows
  let da := dashboardsBreakdown objects tree featureRows
  let re := reportsBreakdown objects tree rels featureRows
  let pk := packagesBreakdown objects tree
  let cn := connectionsBreakdown objects tree rels
  let cf := calculatedFieldsBreakdown objects tree rels
  let fl := filtersBreakdown objects tree rels
  let pa := parametersBreakdown objects tree rels
  let so := sortsBreakdown objects tree rels
  let pr := promptsBreakdown objects tree rels
  let dm := dataModulesBreakdown objects tree rels
  let qu := queriesBreakdown objects tree rels
  let ms := measuresBreakdown objects tree rels
  let di := dimensionsBreakdown objects tree rels
  let ca := buildComplexAnalysis viz cf fl pa so pr ms di qu da re caRows
  let su := buildSummary ca viz da re pk dm cn cf fl pa so pr qu ms di
  let ch := getChallenges objects tree featureRows
  let ap := getAppendix objects tree rels
  ⟨assessmentId, viz, da, re, pk, cn, cf, fl, pa, so, pr, dm, qu, ms, di,
   ca, su, ch, ap, usageStats⟩

/-! ## Specification-side root resolver (for refinement comparison)

`specResolveRoot` is written from the SPECIFICATION's words (§4.2 step 3:
"a breadth-first search over the union of containment children, usage
children, usage parents (reverse), and has-column-parents (reverse) from the
unresolved object's position, stopping at the first dashboard/report root
found via the above resolver applied to visited nodes", then the file-level
fallback).  It is compared against `resolveContainmentRoot`, which embeds
the source. -/
def specResolveRoot (o : Obj) (tree : ContainmentTree) (ug : UsageGraphs)
    (fileContainer : List (Id × String)) : Resolution :=
  match getRoot tree o.id with
  | (some rid, some "dashboard") => ⟨1, 0, some (.obj rid), none⟩
  | (some rid, some "report") => ⟨0, 1, none, some (.obj rid)⟩
  | _ =>
      let visited := bfsPopOrder (unionBfsNbr tree ug) (unionBfsFuel tree ug) [o.id] []
      match visited.findSome?
        (fun n =>
          match getRoot tree n with
          | (some rid, some "dashboard") => some (⟨1, 0, some (.obj rid), none⟩ : Resolution)
          | (some rid, some "report") => some ⟨0, 1, none, some (.obj rid)⟩
          | _ => none) with
      | some r => r
      | none =>
          match alGet fileContainer o.fileId with
          | some "dashboard" => ⟨1, 0, some (.file o.fileId), none⟩
          | some "report" => ⟨0, 1, none, some (.file o.fileId)⟩
          | _ => ⟨0, 0, none, none⟩

/-! ## Hierarchy / cycle-detection utility (`hierarchy_service.py`) -/

/-- A relationship dict consumed by `HierarchyService` (the
`source_object_id` / `source_id` alternative keys are collapsed into one
field). -/
structure HRel where
  relationshipType : String
  sourceId : Id
  targetId : Id
deriving DecidableEq, Repr

def HIERARCHY_RELATIONSHIP_TYPES : List String := ["parent_child", "contains", "has_column"]

/-- A raised Python exception. -/
inductive PyErr where
  | valueError
deriving DecidableEq, Repr

/-- The mutable state shared by the `has_cycle` closure of
`_detect_and_break_cycles`. -/
structure CycState where
  visited : List Id
  recStack : List Id
  cycles : List (List Id)
  edgesToRemove : List (Id × Id)
deriving DecidableEq, Repr

/-- The `for neighbor in graph.get(node, [])` loop body of `has_cycle`,
parameterized by the recursive call.  Note: on a `return True` path the
source does NOT pop `node` from `rec_stack`, and `path.index(neighbor)`
raises `ValueError` when the neighbour is absent from the local path —
both behaviours are preserved. -/
def hcNeighbors (hc : Id → List Id → CycState → Except PyErr (Bool × CycState))
    (node : Id) (path : List Id) :
    CycState → List Id → Except PyErr (Bool × CycState)
  | st, [] => .ok (false, { st with recStack := st.recStack.erase node })
  | st, nbr :: rest =>
      if !st.visited.contains nbr then
        match hc nbr path st with
        | .error e => .error e
        | .ok (true, st2) => .ok (true, st2)
        | .ok (false, st2) => hcNeighbors hc node path st2 rest
      else if st.recStack.contains nbr then
        match path.findIdx? (fun x => x == nbr) with
        | none => .error .valueError
        | some idx =>
            let cycle := path.drop idx ++ [nbr]
            let st2 := { st with
              cycles := st.cycles ++ [cycle],
              edgesToRemove :=
                if cycle.length ≥ 2 then
                  match cycle.reverse with
                  | tgt :: src :: _ => slAdd st.edgesToRemove (src, tgt)
                  | _ => st.edgesToRemove
                else st.edgesToRemove }
            .ok (true, st2)
      else hcNeighbors hc node path st rest

/-- `has_cycle` of `_detect_and_break_cycles` (fuel bounds the recursion
depth, which the `visited` set caps at the number of nodes). -/
def hasCycle (graph : List (Id × List Id)) :
    Nat → Id → List Id → CycState → Except PyErr (Bool × CycState)
  | 0, _, _, st => .ok (false, st)
  | fuel + 1, node, path0, st0 =>
      let st1 := { st0 with visited := slAdd st0.visited node,
                            recStack := slAdd st0.recStack node }
      hcNeighbors (hasCycle graph fuel) node (path0 ++ [node]) st1
        (alGetD graph node [])

/-- `HierarchyService._detect_and_break_cycles`: build the hierarchy-edge
graph, run the DFS cycle detection (which can raise), and filter out the
removed edges.  Returns the filtered relationship list (and the final
detection state). -/
def detectAndBreakCycles (rels : List HRel) :
    Except PyErr (List HRel × CycState) :=
  let graph := rels.foldl
    (fun g r =>
      if !HIERARCHY_RELATIONSHIP_TYPES.contains r.relationshipType then g
      else if r.sourceId == "" || r.targetId == "" then g
      else alApp g r.sourceId r.targetId)
    []
  let run := graph.foldl
    (fun (acc : Except PyErr CycState) kv =>
      match acc with
      | .error e => .error e
      | .ok st =>
          if st.visited.contains kv.1 then .ok st
          else
            match hasCycle graph (graph.length + 2) kv.1 [] st with
            | .error e => .error e
            | .ok (_, st2) => .ok st2)
    (.ok ⟨[], [], [], []⟩)
  match run with
  | .error e => .error e
  | .ok st =>
      let filtered := rels.filter
        (fun r => !st.edgesToRemove.contains (r.sourceId, r.targetId))
      .ok (filtered, st)

/-! ## Notions used by the theorems -/

/-- One step of the resolver fallback BFS: `b` is the source of some
relationship targeting `a` (any category, endpoints unchecked). -/
def revStep (rbt : List (Id × List Id)) (a b : Id) : Prop :=
  b ∈ alGetD rbt a []

/-- Reverse reachability along `relationships_by_target`. -/
def revReach (rbt : List (Id × List Id)) (a b : Id) : Prop :=
  Relation.ReflTransGen (revStep rbt) a b

/-- The normalized-name grouping key a package group keyed by canonical id
`pkgId` carries in `_get_packages_breakdown`. -/
def pkgNormKey (idToObj : List (Id × Obj)) (pkgId : Id) : String :=
  let nn := strLower (strTrim (nameOrId (alGet idToObj pkgId) pkgId))
  if nn == "" then "_id_:" ++ pkgId else nn

/-- The endpoint filter of claim-level relationship hygiene: both endpoints
resolve to known objects. -/
def relEndpointsKnown (idToObj : List (Id × Obj)) (r : Rel) : Bool :=
  (alGet idToObj r.sourceObjectId).isSome && (alGet idToObj r.targetObjectId).isSome

/-! ## Concrete fixtures used by the theorems -/

/-- C2 counterexample: two packages sharing `storeID` "S" with different
display names. -/
def c2p1 : Obj := ⟨"p1", "package", "A", "f1", [("storeID", .s "S")]⟩
def c2p2 : Obj := ⟨"p2", "package", "B", "f2", [("storeID", .s "S")]⟩
def c2objs : List Obj := [c2p1, c2p2]
def c2tree : ContainmentTree := buildContainmentTree c2objs []

/-- C2 amended scenario: two packages whose display names normalize to the
same string, each containing one data module. -/
def c2mObjs : List Obj :=
  [⟨"p1", "package", "Sales", "f1", []⟩, ⟨"m1", "data_module", "M1", "f1", []⟩,
   ⟨"p2", "package", " SALES ", "f2", []⟩, ⟨"m2", "data_module", "M2", "f2", []⟩]
def c2mRels : List Rel := [⟨"contains", "p1", "m1"⟩, ⟨"contains", "p2", "m2"⟩]
def c2mTree : ContainmentTree := buildContainmentTree c2mObjs c2mRels

/-- C3 counterexample: a filter whose only relationship is a containment
edge pointing AT a report in another file. -/
def c3x : Obj := ⟨"x", "filter", "X", "f1", []⟩
def c3c : Obj := ⟨"c", "report", "C", "f2", []⟩
def c3objs : List Obj := [c3x, c3c]
def c3rels : List Rel := [⟨"contains", "x", "c"⟩]
def c3tree : ContainmentTree := buildContainmentTree c3objs c3rels

/-- C3 witness input for the file fallback: an unconnected filter sharing its
file with a dashboard object. -/
def c3fObjs : List Obj :=
  [⟨"d2", "dashboard", "D2", "g1", []⟩, ⟨"t2", "filter", "T2", "g1", []⟩]
def c3fTree : ContainmentTree := buildContainmentTree c3fObjs []

/-- C4 scenario: an `interactiveReport` with zero visualizations. -/
def c4rep : Obj := ⟨"r1", "report", "R1", "f1", [("reportType", .s "interactiveReport")]⟩
def c4tree : ContainmentTree := buildContainmentTree [c4rep] []

/-- The single entry the C4 scenario produces. -/
def c4entry : ReportEntry :=
  { reportId := "r1", reportName := "R1", reportType := "interactiveReport",
    complexity := "Critical", totalVisualizations := 0, vizLow := 0, vizMedium := 0,
    vizHigh := 0, vizCritical := 0, cfLow := 0, cfMedium := 0, cfHigh := 0,
    cfCritical := 0, totalPages := 0, totalDataModules := 0, totalPackages := 0,
    totalDataSources := 0, totalTables := 0, totalColumns := 0, totalFilters := 0,
    totalParameters := 0, totalSorts := 0, totalPrompts := 0,
    totalCalculatedFields := 0, totalMeasures := 0, totalDimensions := 0 }

/-- C8 counterexample: a report and a filter linked only through relationship
endpoints (`"s"`) that reference no object of the assessment. -/
def c8objs : List Obj := [⟨"r", "report", "R", "fR", []⟩, ⟨"t", "filter", "T", "fT", []⟩]
def c8rels : List Rel := [⟨"uses", "s", "t"⟩, ⟨"uses", "r", "s"⟩]

/-- C9 failing input: a two-cycle `a ↔ b` plus an innocent edge `c → a`. -/
def c9rels : List HRel :=
  [⟨"contains", "a", "b"⟩, ⟨"contains", "b", "a"⟩, ⟨"contains", "c", "a"⟩]

/-- C10 scenario: a dashboard containing one visualization whose type has no
entry in the (empty) reference table. -/
def c10objs : List Obj :=
  [⟨"d", "dashboard", "D", "f", []⟩, ⟨"v", "visualization", "V", "f", [("type", .s "Pie")]⟩]
def c10tree : ContainmentTree := buildContainmentTree c10objs [⟨"contains", "d", "v"⟩]

/-- The single entry the C10 scenario produces. -/
def c10entry : DashboardEntry :=
  { dashboardId := "d", dashboardName := "D", complexity := "Unknown",
    totalVisualizations := 1, vizLow := 0, vizMedium := 0, vizHigh := 0,
    vizCritical := 0, totalTabs := 0, totalMeasures := 0, totalDimensions := 0,
    totalCalculatedFields := 0, totalDataModules := 0, totalPackages := 0,
    totalDataSources := 0 }

/-! # Helper lemmas -/

theorem statsSum_statsCountStep (st : Stats) (c : String) :
    statsSum (statsCountStep st c) ≤ statsSum st + 1 := by
  simp only [statsCountStep, statsSum]
  split_ifs <;> simp <;> omega

theorem statsSum_foldl (cs : List String) :
    ∀ st : Stats, statsSum (cs.foldl statsCountStep st) ≤ statsSum st + cs.length := by
  induction cs with
  | nil => intro st; simp
  | cons c t ih =>
      intro st
      have h1 : statsSum (t.foldl statsCountStep (statsCountStep st c)) ≤
          statsSum (statsCountStep st c) + t.length := ih _
      have h2 := statsSum_statsCountStep st c
      simp only [List.foldl_cons, List.length_cons]
      omega

theorem statsSum_buildComplexityStats (cs : List String) :
    statsSum (buildComplexityStats cs) ≤ cs.length := by
  have := statsSum_foldl cs statsZero
  simpa [buildComplexityStats, statsZero, statsSum] using this

/-! # Claim theorems -/

/-- C1: the spec says calculation-kind `"embeddedCalculation"` always yields
`"Medium"`; the code lower-cases the kind before comparing it with the
mixed-case literal, so the branch never fires: with an empty expression the
classifier returns `"Low"`, and with `POWER(x,2)` it returns `"Critical"` —
the result depends on the expression text, contradicting both the claim and
the function's own docstring. -/
theorem claim_c1_embedded_calculation_dead_branch :
    calculatedFieldComplexity "embeddedCalculation" none = "Low" ∧
    calculatedFieldComplexity "embeddedCalculation" (some (.s "")) = "Low" ∧
    calculatedFieldComplexity "embeddedCalculation" (some (.s "POWER(x,2)")) = "Critical" := by
  decide

/-- C4 (confirmed): every entry of the reports breakdown whose report-type
flag lower-cases to `"interactivereport"` — in particular the exact string
`"interactiveReport"` — is assigned complexity `"Critical"` regardless of its
visualization mix; and the concrete zero-visualization `interactiveReport`
scenario yields one `"Critical"` entry with an all-zero
`visualizations_by_complexity`. -/
theorem claim_c4_interactive_report_critical :
    (∀ (objects : List Obj) (tree : ContainmentTree) (rels : List Rel)
      (rows : List FeatureRow),
      ∀ e ∈ (reportsBreakdown objects tree rels rows).reports,
        strLower (strTrim e.reportType) = "interactivereport" →
        e.complexity = "Critical") ∧
    (reportsBreakdown [c4rep] c4tree [] []).reports.map
      (fun e => (e.reportType, e.complexity, e.totalVisualizations,
        e.vizLow, e.vizMedium, e.vizHigh, e.vizCritical)) =
      [("interactiveReport", "Critical", 0, 0, 0, 0, 0)] := by
  constructor
  · intro objects tree rels rows e he h
    simp only [reportsBreakdown, List.mem_map] at he
    obtain ⟨kv, -, rfl⟩ := he
    simp only [reportEntryOf] at h ⊢
    simp [h]
  · rfl

/-- C4 witness: the general rule applied to the concrete `interactiveReport`
entry of the zero-visualization scenario. -/
theorem claim_c4_interactive_report_critical_witness :
    c4entry ∈ (reportsBreakdown [c4rep] c4tree [] []).reports ∧
    c4entry.complexity = "Critical" :=
  ⟨by decide,
   claim_c4_interactive_report_critical.1 [c4rep] c4tree [] [] c4entry
     (by decide) (by decide)⟩

/-- C5 (confirmed): for calculation-kind `"expression"` the classifier scans
the lower-cased expression text: any critical-term hit yields `"Critical"`,
otherwise any medium-term hit yields `"Medium"`, otherwise `"Low"`; and the
two spec scenarios `POWER(x,2)` → Critical, `CAST(x AS INT)` → Medium hold. -/
theorem claim_c5_expression_scan :
    (∀ v : Option PVal,
      ((∃ t ∈ criticalTerms, strHasSub (strLower (exprText v)) t = true) →
        calculatedFieldComplexity "expression" v = "Critical") ∧
      ((¬ ∃ t ∈ criticalTerms, strHasSub (strLower (exprText v)) t = true) →
        (∃ t ∈ mediumTerms, strHasSub (strLower (exprText v)) t = true) →
        calculatedFieldComplexity "expression" v = "Medium") ∧
      ((¬ ∃ t ∈ criticalTerms, strHasSub (strLower (exprText v)) t = true) →
        (¬ ∃ t ∈ mediumTerms, strHasSub (strLower (exprText v)) t = true) →
        calculatedFieldComplexity "expression" v = "Low")) ∧
    calculatedFieldComplexity "expression" (some (.s "POWER(x,2)")) = "Critical" ∧
    calculatedFieldComplexity "expression" (some (.s "CAST(x AS INT)")) = "Medium" := by
  refine ⟨?_, by decide, by decide⟩
  intro v
  have hkind : calculatedFieldComplexity "expression" v =
      (if criticalTerms.any (fun t => strHasSub (strLower (exprText v)) t) then "Critical"
       else if mediumTerms.any (fun t => strHasSub (strLower (exprText v)) t) then "Medium"
       else "Low") := rfl
  refine ⟨?_, ?_, ?_⟩
  · intro h
    have hb : criticalTerms.any (fun t => strHasSub (strLower (exprText v)) t) = true := by
      rw [List.any_eq_true]
      obtain ⟨t, ht, hp⟩ := h
      exact ⟨t, ht, hp⟩
    rw [hkind, if_pos hb]
  · intro hc hm
    have hbc : criticalTerms.any (fun t => strHasSub (strLower (exprText v)) t) = false := by
      rw [Bool.eq_false_iff]
      intro habs
      exact hc (by
        rw [List.any_eq_true] at habs
        obtain ⟨t, ht, hp⟩ := habs
        exact ⟨t, ht, hp⟩)
    have hbm : mediumTerms.any (fun t => strHasSub (strLower (exprText v)) t) = true := by
      rw [List.any_eq_true]
      obtain ⟨t, ht, hp⟩ := hm
      exact ⟨t, ht, hp⟩
    rw [hkind, hbc, hbm]
    rfl
  · intro hc hm
    have hbc : criticalTerms.any (fun t => strHasSub (strLower (exprText v)) t) = false := by
      rw [Bool.eq_false_iff]
      intro habs
      rw [List.any_eq_true] at habs
      obtain ⟨t, ht, hp⟩ := habs
      exact hc ⟨t, ht, hp⟩
    have hbm : mediumTerms.any (fun t => strHasSub (strLower (exprText v)) t) = false := by
      rw [Bool.eq_false_iff]
      intro habs
      rw [List.any_eq_true] at habs
      obtain ⟨t, ht, hp⟩ := habs
      exact hm ⟨t, ht, hp⟩
    rw [hkind, hbc, hbm]
    rfl

/-- C5 witness: the critical branch applied at the concrete expression
`POWER(x,2)` with the witness term `"power"`. -/
theorem claim_c5_expression_scan_witness :
    calculatedFieldComplexity "expression" (some (.s "POWER(x,2)")) = "Critical" :=
  (claim_c5_expression_scan.1 (some (.s "POWER(x,2)"))).1
    ⟨"power", by decide, by decide⟩

/-- C6 (confirmed): report generation is a pure function of the object list,
relationship list, the two cached reference tables and the passthrough
usage-stats blob — two runs on equal inputs produce equal report structures,
ordering of every breakdown list included. -/
theorem claim_c6_determinism (aid : String) (o1 o2 : List Obj) (r1 r2 : List Rel)
    (f1 f2 : List FeatureRow) (g1 g2 : List ComplexFeatureRow)
    (u1 u2 : Option PVal)
    (ho : o1 = o2) (hr : r1 = r2) (hf : f1 = f2) (hg : g1 = g2) (hu : u1 = u2) :
    generateReportForAssessment aid o1 r1 f1 g1 u1 =
      generateReportForAssessment aid o2 r2 f2 g2 u2 := by
  rw [ho, hr, hf, hg, hu]

/-- C6 witness: two runs on the (equal) empty inputs coincide. -/
theorem claim_c6_determinism_witness :
    generateReportForAssessment "a" [] [] [] [] none =
      generateReportForAssessment "a" [] [] [] [] none :=
  claim_c6_determinism "a" [] [] [] [] [] [] [] [] none none
    rfl rfl rfl rfl rfl

/-- C9: the spec says that on cyclic hierarchy input the utility terminates
and produces a cycle-free tree; on `a→b, b→a, c→a` the cycle `a↔b` is
detected and broken, but the aborted DFS leaves `a` and `b` on the recursion
stack, so visiting `c` finds neighbour `a` "on the stack" while it is absent
from the local path and `path.index` raises `ValueError`: the build crashes
instead of returning a repaired tree. -/
theorem claim_c9_cycle_crash :
    detectAndBreakCycles c9rels = .error .valueError := by
  rfl

/-- C10 (confirmed): a dashboard entry whose visualization tally is zero at
every recognized level gets complexity `"Unknown"`; the stats map counts only
the four recognized levels, so its sum never exceeds `total_dashboards`; and
on the concrete one-dashboard input with an unrecognized visualization the
sum (0) is strictly below the total (1) while the dashboard still appears in
the list. -/
theorem claim_c10_unknown_dashboards :
    (∀ (objects : List Obj) (tree : ContainmentTree) (rows : List FeatureRow),
      ∀ e ∈ (dashboardsBreakdown objects tree rows).dashboards,
        e.vizLow = 0 → e.vizMedium = 0 → e.vizHigh = 0 → e.vizCritical = 0 →
        e.complexity = "Unknown") ∧
    (∀ (objects : List Obj) (tree : ContainmentTree) (rows : List FeatureRow),
      statsSum (dashboardsBreakdown objects tree rows).stats ≤
        (dashboardsBreakdown objects tree rows).totalDashboards) ∧
    ((dashboardsBreakdown c10objs c10tree []).dashboards.map
        (fun e => (e.complexity, e.totalVisualizations)) = [("Unknown", 1)] ∧
      (dashboardsBreakdown c10objs c10tree []).totalDashboards = 1 ∧
      statsSum (dashboardsBreakdown c10objs c10tree []).stats = 0) := by
  refine ⟨?_, ?_, by decide, by decide, by decide⟩
  · intro objects tree rows e he h1 h2 h3 h4
    simp only [dashboardsBreakdown, List.mem_map] at he
    obtain ⟨kv, -, rfl⟩ := he
    simp only [dashEntry] at h1 h2 h3 h4 ⊢
    rw [h1, h2, h3, h4]
    rfl
  · intro objects tree rows
    simp only [dashboardsBreakdown]
    have h := statsSum_buildComplexityStats
      (((rootToIds objects tree "dashboard").map
        (dashEntry (getVisualizationComplexityLookup rows) tree.idToObj)).map
          (fun e => e.complexity))
    simpa using h

/-- C10 witness: the general zero-tally rule applied to the concrete
`"Unknown"` dashboard entry, and the stats bound at that input. -/
theorem claim_c10_unknown_dashboards_witness :
    c10entry ∈ (dashboardsBreakdown c10objs c10tree []).dashboards ∧
    c10entry.complexity = "Unknown" ∧
    statsSum (dashboardsBreakdown c10objs c10tree []).stats ≤
      (dashboardsBreakdown c10objs c10tree []).totalDashboards :=
  ⟨by decide,
   claim_c10_unknown_dashboards.1 c10objs c10tree [] c10entry (by decide)
     rfl rfl rfl rfl,
   claim_c10_unknown_dashboards.2.1 c10objs c10tree []⟩

/-- C7 (confirmed): on the empty input (no objects, no relationships, empty
reference tables) report generation is total — a complete structure is
produced in which every section total is 0, every stats map is all-zero and
every item list is empty (summary, challenges and appendix included). -/
theorem claim_c7_empty_input :
    (generateReportForAssessment "a" [] [] [] [] none).vizDetails.totalVisualization = 0 ∧
    (generateReportForAssessment "a" [] [] [] [] none).vizDetails.stats = statsZero ∧
    (generateReportForAssessment "a" [] [] [] [] none).vizDetails.breakdown = [] ∧
    (generateReportForAssessment "a" [] [] [] [] none).dashboards.totalDashboards = 0 ∧
    (generateReportForAssessment "a" [] [] [] [] none).dashboards.stats = statsZero ∧
    (generateReportForAssessment "a" [] [] [] [] none).dashboards.dashboards = [] ∧
    (generateReportForAssessment "a" [] [] [] [] none).reports.totalReports = 0 ∧
    (generateReportForAssessment "a" [] [] [] [] none).reports.stats = statsZero ∧
    (generateReportForAssessment "a" [] [] [] [] none).reports.reports = [] ∧
    (generateReportForAssessment "a" [] [] [] [] none).packages.totalPackages = 0 ∧
    (generateReportForAssessment "a" [] [] [] [] none).packages.stats = statsZero ∧
    (generateReportForAssessment "a" [] [] [] [] none).packages.packages = [] ∧
    (generateReportForAssessment "a" [] [] [] [] none).dataSourceConnections.totalDataSources = 0 ∧
    (generateReportForAssessment "a" [] [] [] [] none).dataSourceConnections.totalDataSourceConnections = 0 ∧
    (generateReportForAssessment "a" [] [] [] [] none).dataSourceConnections.totalUniqueConnections = 0 ∧
    (generateReportForAssessment "a" [] [] [] [] none).dataSourceConnections.totalDataModules = 0 ∧
    (generateReportForAssessment "a" [] [] [] [] none).dataSourceConnections.totalPackages = 0 ∧
    (generateReportForAssessment "a" [] [] [] [] none).dataSourceConnections.stats = statsZero ∧
    (generateReportForAssessment "a" [] [] [] [] none).dataSourceConnections.connections = [] ∧
    (generateReportForAssessment "a" [] [] [] [] none).calculatedFields.total = 0 ∧
    (generateReportForAssessment "a" [] [] [] [] none).calculatedFields.stats = statsZero ∧
    (generateReportForAssessment "a" [] [] [] [] none).calculatedFields.items = [] ∧
    (generateReportForAssessment "a" [] [] [] [] none).filters.total = 0 ∧
    (generateReportForAssessment "a" [] [] [] [] none).filters.stats = statsZero ∧
    (generateReportForAssessment "a" [] [] [] [] none).filters.items = [] ∧
    (generateReportForAssessment "a" [] [] [] [] none).parameters.total = 0 ∧
    (generateReportForAssessment "a" [] [] [] [] none).parameters.stats = statsZero ∧
    (generateReportForAssessment "a" [] [] [] [] none).parameters.items = [] ∧
    (generateReportForAssessment "a" [] [] [] [] none).sorts.total = 0 ∧
    (generateReportForAssessment "a" [] [] [] [] none).sorts.stats = statsZero ∧
    (generateReportForAssessment "a" [] [] [] [] none).sorts.items = [] ∧
    (generateReportForAssessment "a" [] [] [] [] none).prompts.total = 0 ∧
    (generateReportForAssessment "a" [] [] [] [] none).prompts.stats = statsZero ∧
    (generateReportForAssessment "a" [] [] [] [] none).prompts.items = [] ∧
    (generateReportForAssessment "a" [] [] [] [] none).dataModules.totalDataModules = 0 ∧
    (generateReportForAssessment "a" [] [] [] [] none).dataModules.totalMainDataModules = 0 ∧
    (generateReportForAssessment "a" [] [] [] [] none).dataModules.totalUniqueModules = 0 ∧
    (generateReportForAssessment "a" [] [] [] [] none).dataModules.stats = statsZero ∧
    (generateReportForAssessment "a" [] [] [] [] none).dataModules.dataModules = [] ∧
    (generateReportForAssessment "a" [] [] [] [] none).dataModules.mainDataModules = [] ∧
    (generateReportForAssessment "a" [] [] [] [] none).queries.totalQueries = 0 ∧
    (generateReportForAssessment "a" [] [] [] [] none).queries.stats = statsZero ∧
    (generateReportForAssessment "a" [] [] [] [] none).queries.queries = [] ∧
    (generateReportForAssessment "a" [] [] [] [] none).measures.totalMeasures = 0 ∧
    (generateReportForAssessment "a" [] [] [] [] none).measures.measures = [] ∧
    (generateReportForAssessment "a" [] [] [] [] none).dimensions.totalDimensions = 0 ∧
    (generateReportForAssessment "a" [] [] [] [] none).dimensions.dimensions = [] ∧
    (generateReportForAssessment "a" [] [] [] [] none).summary.keyFindings = [] ∧
    (generateReportForAssessment "a" [] [] [] [] none).summary.inventory.all
      (fun i => i.count == 0) = true ∧
    (generateReportForAssessment "a" [] [] [] [] none).challenges.visualization = [] ∧
    (generateReportForAssessment "a" [] [] [] [] none).appendix.dashboards = [] ∧
    (generateReportForAssessment "a" [] [] [] [] none).appendix.reports = [] := by
  decide

/-- C2 counterexample: the two package objects share the stable external
identifier (`storeID` = "S") but carry different display names; the packages
breakdown produces TWO entries, not the single merged entry the claim
demands — package deduplication never consults `storeID`. -/
theorem claim_c2_counterexample :
    pget c2p1.properties "storeID" = pget c2p2.properties "storeID" ∧
    c2p1.name ≠ c2p2.name ∧
    (packagesBreakdown c2objs c2tree).packages.length = 2 ∧
    ¬ (packagesBreakdown c2objs c2tree).packages.length = 1 := by
  decide

/-- C8 counterexample: the relationships `s → t` and `r → s` each have an
endpoint (`"s"`) that references no object of the assessment, yet deleting
them changes the generated report: through the unchecked
`relationships_by_target` map the filter `t` resolves to the report `r`
(`reports_containing_count` 1 vs 0 after removal). -/
theorem claim_c8_counterexample :
    (c8objs.map (fun o => o.id)).contains "s" = false ∧
    generateReportForAssessment "a" c8objs c8rels [] [] none ≠
      generateReportForAssessment "a" c8objs [] [] [] none := by
  refine ⟨by decide, ?_⟩
  intro h
  have h2 := congrArg (fun r => r.filters.items.map (·.reportsContainingCount)) h
  exact absurd h2 (by decide)

/-! ### Association-list lemmas for the package name-deduplication pass -/

theorem alGet_eq_some_mem {β : Type} {m : List (String × β)} {k : String} {v : β}
    (h : alGet m k = some v) : (k, v) ∈ m := by
  induction m with
  | nil => simp [alGet] at h
  | cons kv t ih =>
      obtain ⟨a, b⟩ := kv
      by_cases hk : a = k
      · subst hk
        simp [alGet, List.find?_cons] at h
        subst h
        exact .head _
      · have hk2 : ((a, b).1 == k) = false := by simpa using hk
        simp only [alGet, List.find?_cons, hk2] at h
        exact .tail _ (ih h)

theorem alGet_eq_none_not_key {β : Type} {m : List (String × β)} {k : String}
    (h : alGet m k = none) : k ∉ m.map Prod.fst := by
  induction m with
  | nil => simp
  | cons kv t ih =>
      obtain ⟨a, b⟩ := kv
      by_cases hk : a = k
      · subst hk
        simp [alGet, List.find?_cons] at h
      · have hk2 : ((a, b).1 == k) = false := by simpa using hk
        simp only [alGet, List.find?_cons, hk2] at h
        simp only [List.map_cons, List.mem_cons]
        rintro (rfl | hmem)
        · exact hk rfl
        · exact ih h hmem

theorem alSet_keys_of_get_some {β : Type} {m : List (String × β)} {k : String}
    {w : β} (v : β) (h : alGet m k = some w) :
    (alSet m k v).map Prod.fst = m.map Prod.fst := by
  induction m with
  | nil => simp [alGet] at h
  | cons kv t ih =>
      obtain ⟨a, b⟩ := kv
      by_cases hk : a = k
      · subst hk
        simp [alSet]
      · have hk2 : ((a, b).1 == k) = false := by simpa using hk
        simp only [alGet, List.find?_cons, hk2] at h
        simp [alSet, hk2, ih h]

theorem mem_alSet {β : Type} {m : List (String × β)} {k : String} {v : β}
    {g : String × β} (hg : g ∈ alSet m k v) : g = (k, v) ∨ g ∈ m := by
  induction m with
  | nil => simpa [alSet] using hg
  | cons kv t ih =>
      obtain ⟨a, b⟩ := kv
      by_cases hk : a = k
      · subst hk
        simp only [alSet, beq_self_eq_true, if_true] at hg
        rcases List.mem_cons.mp hg with h1 | h1
        · exact .inl h1
        · exact .inr (.tail _ h1)
      · have hk2 : ((a, b).1 == k) = false := by simpa using hk
        simp only [alSet, hk2, Bool.false_eq_true, if_false] at hg
        rcases List.mem_cons.mp hg with h1 | h1
        · exact .inr (h1 ▸ .head _)
        · rcases ih h1 with h2 | h2
          · exact .inl h2
          · exact .inr (.tail _ h2)

theorem pkgNameStep_inv (idToObj : List (Id × Obj)) (nm : List (String × (Id × List Id)))
    (kv : Id × List Id)
    (h1 : (nm.map Prod.fst).Nodup)
    (h2 : ∀ g ∈ nm, g.1 = pkgNormKey idToObj g.2.1) :
    ((pkgNameStep idToObj nm kv).map Prod.fst).Nodup ∧
    ∀ g ∈ pkgNameStep idToObj nm kv, g.1 = pkgNormKey idToObj g.2.1 := by
  have hstep : pkgNameStep idToObj nm kv =
      match alGet nm (pkgNormKey idToObj kv.1) with
      | some prev => alSet nm (pkgNormKey idToObj kv.1) (prev.1, slUnion prev.2 kv.2)
      | none => nm ++ [(pkgNormKey idToObj kv.1, (kv.1, kv.2))] := rfl
  rw [hstep]
  cases hget : alGet nm (pkgNormKey idToObj kv.1) with
  | some prev =>
      refine ⟨?_, ?_⟩
      · rw [alSet_keys_of_get_some _ hget]
        exact h1
      · intro g hg
        rcases mem_alSet hg with rfl | hgm
        · have hp := h2 _ (alGet_eq_some_mem hget)
          simpa using hp
        · exact h2 _ hgm
  | none =>
      refine ⟨?_, ?_⟩
      · rw [List.map_append]
        refine List.Nodup.append h1 (by simp) ?_
        intro a ha hb
        simp only [List.map_cons, List.map_nil, List.mem_singleton] at hb
        subst hb
        exact alGet_eq_none_not_key hget ha
      · intro g hg
        rcases List.mem_append.mp hg with hgm | hgm
        · exact h2 _ hgm
        · simp only [List.mem_singleton] at hgm
          subst hgm
          rfl

theorem packageNameGroups_foldl_inv (idToObj : List (Id × Obj)) :
    ∀ (kg : List (Id × List Id)) (acc : List (String × (Id × List Id))),
      (acc.map Prod.fst).Nodup →
      (∀ g ∈ acc, g.1 = pkgNormKey idToObj g.2.1) →
      ((kg.foldl (pkgNameStep idToObj) acc).map Prod.fst).Nodup ∧
      ∀ g ∈ kg.foldl (pkgNameStep idToObj) acc, g.1 = pkgNormKey idToObj g.2.1 := by
  intro kg
  induction kg with
  | nil => intro acc h1 h2; exact ⟨h1, h2⟩
  | cons kv t ih =>
      intro acc h1 h2
      have hs := pkgNameStep_inv idToObj acc kv h1 h2
      simpa using ih (pkgNameStep idToObj acc kv) hs.1 hs.2

theorem packageNameGroups_inv (idToObj : List (Id × Obj)) (kg : List (Id × List Id)) :
    ((packageNameGroups idToObj kg).map Prod.fst).Nodup ∧
    ∀ g ∈ packageNameGroups idToObj kg, g.1 = pkgNormKey idToObj g.2.1 :=
  packageNameGroups_foldl_inv idToObj kg [] (by simp) (by simp)

/-- C2 amended: package deduplication groups by the normalized (trimmed,
case-folded) display name only — the stable external identifier is never
consulted for packages.  So two package entries of the breakdown never share
a nonempty normalized display name, and on the concrete input with two
packages named `"Sales"` and `" SALES "` (one data module each) the
breakdown yields exactly one entry whose nested count covers the union of
both member sets. -/
theorem claim_c2_amended :
    (∀ (objects : List Obj) (tree : ContainmentTree),
      ((packagesBreakdown objects tree).packages.map
        (fun e => strLower (strTrim e.packageName))).Pairwise
          (fun a b => a ≠ "" → a ≠ b)) ∧
    ((packagesBreakdown c2mObjs c2mTree).packages.map
      (fun e => (e.packageName, e.totalDataModules)) = [("Sales", 2)]) := by
  refine ⟨?_, by decide⟩
  intro objects tree
  have hinv := packageNameGroups_inv tree.idToObj (packageKeyToMembers objects tree)
  have hkeys : (packageNameGroups tree.idToObj
      (packageKeyToMembers objects tree)).Pairwise (fun g1 g2 => g1.1 ≠ g2.1) := by
    have := hinv.1
    rw [List.Nodup, List.pairwise_map] at this
    exact this
  have hgrp : (packageNameGroups tree.idToObj
      (packageKeyToMembers objects tree)).Pairwise
      (fun g1 g2 =>
        strLower (strTrim (nameOrId (alGet tree.idToObj g1.2.1) g1.2.1)) ≠ "" →
        strLower (strTrim (nameOrId (alGet tree.idToObj g1.2.1) g1.2.1)) ≠
          strLower (strTrim (nameOrId (alGet tree.idToObj g2.2.1) g2.2.1))) := by
    refine hkeys.imp_of_mem ?_
    intro g1 g2 hm1 hm2 hne hne1 heq
    apply hne
    have hk1 := hinv.2 g1 hm1
    have hk2 := hinv.2 g2 hm2
    rw [hk1, hk2]
    unfold pkgNormKey
    have hb1 : (strLower (strTrim (nameOrId (alGet tree.idToObj g1.2.1) g1.2.1)) == "")
        = false := by simpa using hne1
    have hne2 : strLower (strTrim (nameOrId (alGet tree.idToObj g2.2.1) g2.2.1)) ≠ "" := by
      rw [← heq]; exact hne1
    have hb2 : (strLower (strTrim (nameOrId (alGet tree.idToObj g2.2.1) g2.2.1)) == "")
        = false := by simpa using hne2
    simp only [hb1, hb2, Bool.false_eq_true, if_false]
    exact heq
  simp only [packagesBreakdown, List.map_map]
  rw [List.pairwise_map]
  exact hgrp

/-- C2 amended witness: the no-duplicate-normalized-names rule at the
two-package counterexample input. -/
theorem claim_c2_amended_witness :
    ((packagesBreakdown c2objs c2tree).packages.map
      (fun e => strLower (strTrim e.packageName))).Pairwise
        (fun a b => a ≠ "" → a ≠ b) :=
  claim_c2_amended.1 c2objs c2tree

/-- C3 counterexample: a filter `x` that CONTAINS a report `c` (in another
file).  The specification's BFS follows containment children and finds `c`,
attributing `x` to the report; the code's fallback BFS only follows reverse
(`relationships_by_target`) edges, finds nothing, and yields (none, none). -/
theorem claim_c3_counterexample :
    resolveContainmentRoot c3x c3tree (fileToContainerType c3objs)
      (relationshipsByTarget c3rels) = ⟨0, 0, none, none⟩ ∧
    specResolveRoot c3x c3tree (buildUsageGraphs c3rels c3tree.idToObj)
      (fileToContainerType c3objs) = ⟨0, 1, none, some (.obj "c")⟩ ∧
    resolveContainmentRoot c3x c3tree (fileToContainerType c3objs)
      (relationshipsByTarget c3rels) ≠
      specResolveRoot c3x c3tree (buildUsageGraphs c3rels c3tree.idToObj)
        (fileToContainerType c3objs) := by
  refine ⟨by decide, by decide, by decide⟩

theorem foldl_enqueue_mem (nbrs : List Id) :
    ∀ (qs : List Id × List Id) (x : Id),
      x ∈ (nbrs.foldl
        (fun (qs : List Id × List Id) srcId =>
          if qs.2.contains srcId then qs
          else (qs.1 ++ [srcId], qs.2 ++ [srcId])) qs).1 →
      x ∈ qs.1 ∨ x ∈ nbrs := by
  induction nbrs with
  | nil => intro qs x h; exact .inl h
  | cons n t ih =>
      intro qs x h
      simp only [List.foldl_cons] at h
      by_cases hc : qs.2.contains n
      · rw [if_pos hc] at h
        rcases ih qs x h with h1 | h1
        · exact .inl h1
        · exact .inr (.tail _ h1)
      · rw [if_neg hc] at h
        rcases ih _ x h with h1 | h1
        · rcases List.mem_append.mp h1 with h2 | h2
          · exact .inl h2
          · simp only [List.mem_singleton] at h2
            subst h2
            exact .inr (.head _)
        · exact .inr (.tail _ h1)

theorem resolveBfsAux_sound (tree : ContainmentTree) (rbt : List (Id × List Id))
    (start : Id) :
    ∀ (fuel : Nat) (queue seen : List Id) (r : Resolution),
      (∀ n ∈ queue, revReach rbt start n) →
      resolveBfsAux tree rbt fuel queue seen = some r →
      ∃ n rid, revReach rbt start n ∧
        ((getRoot tree n = (some rid, some "dashboard") ∧
            r = ⟨1, 0, some (.obj rid), none⟩) ∨
         (getRoot tree n = (some rid, some "report") ∧
            r = ⟨0, 1, none, some (.obj rid)⟩)) := by
  intro fuel
  induction fuel with
  | zero =>
      intro queue seen r _ h
      simp [resolveBfsAux] at h
  | succ fuel ih =>
      intro queue seen r hq h
      cases queue with
      | nil => simp [resolveBfsAux] at h
      | cons node rest =>
          rw [resolveBfsAux] at h
          by_cases h1 : ((getRoot tree node).2 == some "dashboard" &&
              (getRoot tree node).1.isSome) = true
          · rw [if_pos h1] at h
            rw [Bool.and_eq_true, beq_iff_eq, Option.isSome_iff_exists] at h1
            obtain ⟨hk, rid, hrid⟩ := h1
            cases h
            refine ⟨node, rid, hq node (.head _), .inl ⟨?_, ?_⟩⟩
            · rw [← Prod.mk.eta (p := getRoot tree node), hrid, hk]
            · rw [hrid]
              rfl
          · rw [if_neg h1] at h
            by_cases h2 : ((getRoot tree node).2 == some "report" &&
                (getRoot tree node).1.isSome) = true
            · rw [if_pos h2] at h
              rw [Bool.and_eq_true, beq_iff_eq, Option.isSome_iff_exists] at h2
              obtain ⟨hk, rid, hrid⟩ := h2
              cases h
              refine ⟨node, rid, hq node (.head _), .inr ⟨?_, ?_⟩⟩
              · rw [← Prod.mk.eta (p := getRoot tree node), hrid, hk]
              · rw [hrid]
                rfl
            · rw [if_neg h2] at h
              refine ih _ _ r ?_ h
              intro n hn
              rcases foldl_enqueue_mem _ _ _ hn with hm | hm
              · exact hq n (.tail _ hm)
              · exact Relation.ReflTransGen.tail (hq node (.head _)) hm

/-- C3 amended: when the containment walk fails, root resolution runs a BFS
over the REVERSE relationship graph (`relationships_by_target`: sources of
any relationship pointing at a visited node, regardless of category and
without endpoint checks) — not the containment-children/usage union the
claim describes.  Any real root it attributes is the containment-resolver
root of a node reverse-reachable from the object; synthetic file roots only
arise from the object's own file via the file-container fallback, and a
(none, none) outcome implies the file container knows neither a dashboard
nor a report for the object's file. -/
theorem claim_c3_amended (o : Obj) (tree : ContainmentTree)
    (fileContainer : List (Id × String)) (rbt : List (Id × List Id)) :
    (∀ rid, (resolveContainmentRoot o tree fileContainer rbt).dashRootKey =
        some (.obj rid) →
      ∃ n, revReach rbt o.id n ∧ getRoot tree n = (some rid, some "dashboard")) ∧
    (∀ rid, (resolveContainmentRoot o tree fileContainer rbt).reportRootKey =
        some (.obj rid) →
      ∃ n, revReach rbt o.id n ∧ getRoot tree n = (some rid, some "report")) ∧
    (∀ fid, (resolveContainmentRoot o tree fileContainer rbt).dashRootKey =
        some (.file fid) →
      fid = o.fileId ∧ alGet fileContainer o.fileId = some "dashboard") ∧
    (∀ fid, (resolveContainmentRoot o tree fileContainer rbt).reportRootKey =
        some (.file fid) →
      fid = o.fileId ∧ alGet fileContainer o.fileId = some "report") ∧
    (resolveContainmentRoot o tree fileContainer rbt = ⟨0, 0, none, none⟩ →
      alGet fileContainer o.fileId ≠ some "dashboard" ∧
      alGet fileContainer o.fileId ≠ some "report") := by
  have hinit : ∀ n ∈ (resolveQs0 o rbt).1, revReach rbt o.id n := by
    intro n hn
    simp only [resolveQs0] at hn
    rcases foldl_enqueue_mem _ _ _ hn with h1 | h1
    · exact absurd h1 (List.not_mem_nil n)
    · exact Relation.ReflTransGen.tail Relation.ReflTransGen.refl h1
  by_cases h1 : ((getRoot tree o.id).2 == some "dashboard" &&
      (getRoot tree o.id).1.isSome) = true
  · have hres : resolveContainmentRoot o tree fileContainer rbt =
        ⟨1, 0, (getRoot tree o.id).1.map RootKey.obj, none⟩ := by
      unfold resolveContainmentRoot
      rw [if_pos h1]
    rw [Bool.and_eq_true, beq_iff_eq, Option.isSome_iff_exists] at h1
    obtain ⟨hk, rid0, hrid⟩ := h1
    have hroot : getRoot tree o.id = (some rid0, some "dashboard") := by
      rw [← Prod.mk.eta (p := getRoot tree o.id), hrid, hk]
    rw [hres]
    refine ⟨?_, ?_, ?_, ?_, ?_⟩
    · intro rid h
      rw [hrid] at h
      simp only [Option.map_some', Option.some.injEq, RootKey.obj.injEq] at h
      subst h
      exact ⟨o.id, Relation.ReflTransGen.refl, hroot⟩
    · intro rid h
      simp at h
    · intro fid h
      rw [hrid] at h
      simp at h
    · intro fid h
      simp at h
    · intro h
      rw [hrid] at h
      simp at h
  · by_cases h2 : ((getRoot tree o.id).2 == some "report" &&
        (getRoot tree o.id).1.isSome) = true
    · have hres : resolveContainmentRoot o tree fileContainer rbt =
          ⟨0, 1, none, (getRoot tree o.id).1.map RootKey.obj⟩ := by
        unfold resolveContainmentRoot
        rw [if_neg h1, if_pos h2]
      rw [Bool.and_eq_true, beq_iff_eq, Option.isSome_iff_exists] at h2
      obtain ⟨hk, rid0, hrid⟩ := h2
      have hroot : getRoot tree o.id = (some rid0, some "report") := by
        rw [← Prod.mk.eta (p := getRoot tree o.id), hrid, hk]
      rw [hres]
      refine ⟨?_, ?_, ?_, ?_, ?_⟩
      · intro rid h
        simp at h
      · intro rid h
        rw [hrid] at h
        simp only [Option.map_some', Option.some.injEq, RootKey.obj.injEq] at h
        subst h
        exact ⟨o.id, Relation.ReflTransGen.refl, hroot⟩
      · intro fid h
        simp at h
      · intro fid h
        rw [hrid] at h
        simp at h
      · intro h
        rw [hrid] at h
        simp at h
    · rcases hbfs : resolveBfsAux tree rbt (rbtFuel rbt) (resolveQs0 o rbt).1
          (resolveQs0 o rbt).2 with _ | r
      · have hres : resolveContainmentRoot o tree fileContainer rbt =
            resolveFileFallback o fileContainer := by
          unfold resolveContainmentRoot
          rw [if_neg h1, if_neg h2, hbfs]
        rw [hres]
        unfold resolveFileFallback
        by_cases h3 : (alGet fileContainer o.fileId == some "dashboard") = true
        · rw [if_pos h3]
          rw [beq_iff_eq] at h3
          refine ⟨?_, ?_, ?_, ?_, ?_⟩
          · intro rid h
            simp at h
          · intro rid h
            simp at h
          · intro fid h
            simp only [Option.some.injEq, RootKey.file.injEq] at h
            exact ⟨h.symm, h3⟩
          · intro fid h
            simp at h
          · intro h
            simp at h
        · rw [if_neg h3]
          rw [beq_iff_eq] at h3
          by_cases h4 : (alGet fileContainer o.fileId == some "report") = true
          · rw [if_pos h4]
            rw [beq_iff_eq] at h4
            refine ⟨?_, ?_, ?_, ?_, ?_⟩
            · intro rid h
              simp at h
            · intro rid h
              simp at h
            · intro fid h
              simp at h
            · intro fid h
              simp only [Option.some.injEq, RootKey.file.injEq] at h
              exact ⟨h.symm, h4⟩
            · intro h
              simp at h
          · rw [if_neg h4]
            rw [beq_iff_eq] at h4
            refine ⟨?_, ?_, ?_, ?_, ?_⟩
            · intro rid h
              simp at h
            · intro rid h
              simp at h
            · intro fid h
              simp at h
            · intro fid h
              simp at h
            · intro _
              exact ⟨h3, h4⟩
      · have hres : resolveContainmentRoot o tree fileContainer rbt = r := by
          unfold resolveContainmentRoot
          rw [if_neg h1, if_neg h2, hbfs]
        obtain ⟨n, rid0, hreach, hcase⟩ :=
          resolveBfsAux_sound tree rbt o.id _ _ _ r hinit hbfs
        rw [hres]
        rcases hcase with ⟨hroot, rfl⟩ | ⟨hroot, rfl⟩
        · refine ⟨?_, ?_, ?_, ?_, ?_⟩
          · intro rid h
            simp only [Option.some.injEq, RootKey.obj.injEq] at h
            subst h
            exact ⟨n, hreach, hroot⟩
          · intro rid h
            simp at h
          · intro fid h
            simp at h
          · intro fid h
            simp at h
          · intro h
            simp at h
        · refine ⟨?_, ?_, ?_, ?_, ?_⟩
          · intro rid h
            simp at h
          · intro rid h
            simp only [Option.some.injEq, RootKey.obj.injEq] at h
            subst h
            exact ⟨n, hreach, hroot⟩
          · intro fid h
            simp at h
          · intro fid h
            simp at h
          · intro h
            simp at h

/-- C3 amended witness: the file-fallback part instantiated at the concrete
unconnected filter whose file carries a dashboard object. -/
theorem claim_c3_amended_witness :
    "g1" = (⟨"t2", "filter", "T2", "g1", []⟩ : Obj).fileId ∧
    alGet (fileToContainerType c3fObjs) (⟨"t2", "filter", "T2", "g1", []⟩ : Obj).fileId =
      some "dashboard" :=
  (claim_c3_amended ⟨"t2", "filter", "T2", "g1", []⟩ c3fTree
    (fileToContainerType c3fObjs) (relationshipsByTarget [])).2.2.1 "g1" (by rfl)

theorem foldl_filter_eq {α β : Type} (p : α → Bool) (f : β → α → β)
    (h : ∀ acc a, p a = false → f acc a = acc) :
    ∀ (l : List α) (init : β), (l.filter p).foldl f init = l.foldl f init := by
  intro l
  induction l with
  | nil => intro init; rfl
  | cons a t ih =>
      intro init
      by_cases hp : p a = true
      · rw [List.filter_cons_of_pos hp]
        simp only [List.foldl_cons]
        exact ih (f init a)
      · have hpf : p a = false := by simpa using hp
        rw [List.filter_cons_of_neg (by simp [hpf])]
        simp only [List.foldl_cons]
        rw [h init a hpf]
        exact ih init

/-- C8 amended: relationships with a missing endpoint are ignored by the
containment tree and by both usage-graph constructions (removing them leaves
those derived graphs unchanged for every input) — but NOT by the unchecked
`relationships_by_target` reverse map consulted by the resolver fallback, so
removing them can still change the generated report (see the
counterexample). -/
theorem claim_c8_amended (objects : List Obj) (rels : List Rel) :
    buildContainmentTree objects
        (rels.filter (relEndpointsKnown (objects.foldl (fun m o => alSet m o.id o) []))) =
      buildContainmentTree objects rels ∧
    buildUsageGraphs
        (rels.filter (relEndpointsKnown (objects.foldl (fun m o => alSet m o.id o) [])))
        (objects.foldl (fun m o => alSet m o.id o) []) =
      buildUsageGraphs rels (objects.foldl (fun m o => alSet m o.id o) []) ∧
    usageChildrenMap
        (rels.filter (relEndpointsKnown (objects.foldl (fun m o => alSet m o.id o) [])))
        (objects.foldl (fun m o => alSet m o.id o) []) =
      usageChildrenMap rels (objects.foldl (fun m o => alSet m o.id o) []) := by
  refine ⟨?_, ?_, ?_⟩
  · simp only [buildContainmentTree]
    rw [foldl_filter_eq]
    intro acc r hp
    unfold relEndpointsKnown at hp
    rw [Bool.and_eq_false_iff] at hp
    rcases hp with hp | hp
    · simp [hp]
    · simp [hp]
  · simp only [buildUsageGraphs]
    rw [foldl_filter_eq]
    intro acc r hp
    unfold relEndpointsKnown at hp
    rw [Bool.and_eq_false_iff] at hp
    have hcond : ((alGet (objects.foldl (fun m o => alSet m o.id o) [])
          r.sourceObjectId).isNone ||
        (alGet (objects.foldl (fun m o => alSet m o.id o) [])
          r.targetObjectId).isNone) = true := by
      rcases hp with hp | hp
      · rw [Bool.or_eq_true]
        left
        cases hg : alGet (objects.foldl (fun m o => alSet m o.id o) []) r.sourceObjectId
        · rfl
        · rw [hg] at hp
          simp at hp
      · rw [Bool.or_eq_true]
        right
        cases hg : alGet (objects.foldl (fun m o => alSet m o.id o) []) r.targetObjectId
        · rfl
        · rw [hg] at hp
          simp at hp
    rw [if_pos hcond]
  · simp only [usageChildrenMap]
    rw [foldl_filter_eq]
    intro acc r hp
    unfold relEndpointsKnown at hp
    by_cases hu : USAGE_REL_TYPES.contains (normalizeRelType r.relationshipType) = true
    · simp only [hu, Bool.not_true, hp]
      simp
    · have hcf : USAGE_REL_TYPES.contains (normalizeRelType r.relationshipType) = false := by
        simpa using hu
      have hnb : (!USAGE_REL_TYPES.contains (normalizeRelType r.relationshipType)) = true := by
        rw [hcf]
        rfl
      rw [if_pos hnb]

end C2L
